import Mathlib

/-!
# Verification of the cpp-sqlite ORM layer

A shallow embedding of the reflection-driven ORM in
`src/cpp_sqlite/src/cpp_sqlite/` (`DBDataAccessObject.hpp`, `DBDatabase.hpp`,
`DBForeignKey.hpp`, `DBTraits.hpp`).

Modelling choices, mirrored from the source:

* A record type (`BOOST_DESCRIBE`d struct deriving from `BaseTransferObject`)
  is a list of fields, each a name together with a `FieldKind`.  The member
  iteration order of `boost::describe` (inherited members first) makes `id`
  the first field of every valid descriptor; we carry that as a hypothesis
  (`("id", FieldKind.integer)` heads the list) where a claim needs it.
* The SQLite engine is an in-memory association list from table name to a
  list of rows; a row is the list of values bound by `Database::insert`
  (`sqlite3_bind_int64/double/text/blob`).  Doubles are modelled as exact
  rationals: `sqlite3_bind_double`/`sqlite3_column_double` round-trip double
  values exactly, so the identity embedding is faithful.
* `uint32_t` ids are natural numbers; the unassigned sentinel is
  `2^32 - 1` and the counter increment wraps modulo `2^32` as the C++
  `++idCounter_` does.  The `static_cast<uint32_t>(sqlite3_column_int64 ...)`
  casts on id columns are `x % 2^32`; on scalar columns the casts are the
  identity for every value that was bound from the same member type, and are
  modelled as the identity.
* Statement handles are booleans (`prepared` / `nullptr`): the constructor of
  `DataAccessObject` either succeeds wholesale or fails wholesale, driven by
  `Env.engineFails` (in SQLite, `CREATE TABLE` failure makes every prepare
  against the missing table fail as well, so the three statements stand or
  fall together).
* The recursion of cascading insert/select through `getDAO<memberType>()` is
  bounded by explicit fuel; C++ template instantiation guarantees record
  types cannot be cyclic, so every concrete scenario has a sufficient fuel.
* `DBBaseTransferObject.hpp` is absent from the `cpp_sqlite/` directory of
  the source tree.  Modelled from the spec: the identity field is an
  unsigned 32-bit integer whose default value is the unassigned sentinel
  (this matches the sibling `sqlite_db/DBBaseTransferObject.hpp` variant).
-/

namespace CppSqlite

/-- The unassigned-id sentinel, `std::numeric_limits<uint32_t>::max()`. -/
def UNASSIGNED : Nat := 4294967295

/-- `2^32`, the modulus of `uint32_t` arithmetic. -/
def U32MOD : Nat := 4294967296

/-- The kind of a described member, as classified by the `if constexpr`
chains of `DBDatabase.hpp` / `DBDataAccessObject.hpp`: scalar kinds,
`ForeignKey<T>`, a nested transfer object (embedded entity), and
`RepeatedFieldTransferObject<T>`.  Related types are referenced by their
table name (`stripNamespace(pretty_name)`). -/
inductive FieldKind where
  | integer : FieldKind
  | float : FieldKind
  | text : FieldKind
  | blob : FieldKind
  | embedded : String → FieldKind
  | foreignKey : String → FieldKind
  | repeated : String → FieldKind
deriving DecidableEq, Repr

/-- A described member: name and kind. -/
abbrev Field := String × FieldKind

/-- A value stored in a SQLite column, as bound by `Database::insert`. -/
inductive SQLVal where
  | sInt : Int → SQLVal
  | sFloat : ℚ → SQLVal
  | sText : String → SQLVal
  | sBlob : List Nat → SQLVal
deriving DecidableEq, Repr

/-- A table row: the bound column values in member order. -/
abbrev Row := List SQLVal

/-- A runtime field value of a transfer object.  `vForeignKey` carries the
id and the `data_` cache of `ForeignKey<T>`; `vEmbedded` carries the nested
object's member values; `vRepeated` carries the `data` vector of
`RepeatedFieldTransferObject<T>`. -/
inductive Value where
  | vInt : Int → Value
  | vFloat : ℚ → Value
  | vText : String → Value
  | vBlob : List Nat → Value
  | vEmbedded : List Value → Value
  | vForeignKey : Nat → Option (List Value) → Value
  | vRepeated : List (List Value) → Value

/-- A transfer object: its member values in `boost::describe` order. -/
abbrev Record := List Value

/-- `data.id` of a transfer object: by the `boost::describe` order the
inherited `id` member is the first value. -/
def getId (r : Record) : Nat :=
  match r with
  | Value.vInt i :: _ => i.toNat
  | _ => 0

/-- Assign `data.id` in place. -/
def setId (r : Record) (n : Nat) : Record :=
  match r with
  | Value.vInt _ :: rest => Value.vInt (n : Int) :: rest
  | other => other

/-- Static schema environment: entity name to described field list, plus the
failure oracle for the storage engine (a name whose schema the engine
rejects models a failed `sqlite3_exec`/`sqlite3_prepare_v2`). -/
structure Env where
  schemas : List (String × List Field)
  engineFails : String → Bool

/-- Look up the described fields of an entity. -/
def envFields (env : Env) (name : String) : List Field :=
  match env.schemas.find? (fun p => p.1 = name) with
  | some p => p.2
  | none => []

/-- The state of one `DataAccessObject<T>`: prepared-statement handles
(`true` = prepared, `false` = null), the id counter, the double buffer and
the sticky initialization flag. -/
structure DAOState where
  hasInsertStmt : Bool
  hasSelectAllStmt : Bool
  hasSelectByIdStmt : Bool
  idCounter : Nat
  writeBuffer : List Record
  flushBuffer : List Record
  isInitialized : Bool

/-- The `Database` (registry) state: the DAO cache keyed by type, the SQLite
tables, and the log sink. -/
structure RegState where
  daos : List (String × DAOState)
  tables : List (String × List Row)
  log : List String

/-- A registry fresh out of the constructor: empty cache, empty engine. -/
def freshReg : RegState := { daos := [], tables := [], log := [] }

/-- Find a table's rows by name. -/
def tblFind (ts : List (String × List Row)) (name : String) :
    Option (List Row) :=
  match ts.find? (fun p => p.1 = name) with
  | some p => some p.2
  | none => none

/-- Replace a table's rows (no-op when the table does not exist). -/
def tblSet (ts : List (String × List Row)) (name : String)
    (rows : List Row) : List (String × List Row) :=
  match ts with
  | [] => []
  | (n, rs) :: rest =>
      if n = name then (n, rows) :: rest else (n, rs) :: tblSet rest name rows

/-- `CREATE TABLE IF NOT EXISTS`: append an empty table unless present. -/
def tblCreate (ts : List (String × List Row)) (name : String) :
    List (String × List Row) :=
  match tblFind ts name with
  | some _ => ts
  | none => ts ++ [(name, [])]

/-- Find a cached DAO by entity name (`std::type_index` key). -/
def daoFind (ds : List (String × DAOState)) (name : String) :
    Option DAOState :=
  match ds.find? (fun p => p.1 = name) with
  | some p => some p.2
  | none => none

/-- Update a cached DAO in place. -/
def daoSet (ds : List (String × DAOState)) (name : String) (d : DAOState) :
    List (String × DAOState) :=
  match ds with
  | [] => []
  | (n, d0) :: rest =>
      if n = name then (n, d) :: rest else (n, d0) :: daoSet rest name d

/-- `DataAccessObject::getSQLType`: map a scalar member type to the SQL
column type. -/
def getSQLType (k : FieldKind) : String :=
  match k with
  | FieldKind.integer => "INTEGER"
  | FieldKind.float => "FLOAT"
  | FieldKind.text => "TEXT"
  | _ => "BLOB"

/-- The junction-table DDL executed immediately inside
`generateCreateTableSQL` for a `RepeatedFieldTransferObject` member. -/
def junctionDDL (parent child : String) : String :=
  "CREATE TABLE IF NOT EXISTS " ++ parent ++ "_" ++ child ++ "(" ++ parent ++
    "_id INTEGER, " ++ child ++ "_id INTEGER); "

/-- The junction-table name `<parent>_<child>`. -/
def junctionName (parent child : String) : String :=
  parent ++ "_" ++ child

/-- The child entities of the repeated fields, in member order. -/
def repeatedChildren (fields : List Field) : List String :=
  fields.filterMap fun f =>
    match f.2 with
    | FieldKind.repeated c => some c
    | _ => none

/-- The column-definition / FOREIGN-KEY-clause accumulator of
`DataAccessObject::generateCreateTableSQL`, with its `first` flag.
Repeated fields contribute no column (their junction DDL is an immediate
side effect, modelled in `getDAO`). -/
def createColsAux (fields : List Field) (first : Bool) (sql fks : String) :
    String × String :=
  match fields with
  | [] => (sql, fks)
  | (fname, k) :: fs =>
      match k with
      | FieldKind.repeated _ => createColsAux fs first sql fks
      | FieldKind.foreignKey child =>
          createColsAux fs false
            (sql ++ (if first then "" else ", ") ++ fname ++ "_id INTEGER")
            (fks ++ ", FOREIGN KEY (" ++ fname ++ "_id) REFERENCES " ++
              child ++ "(id)")
      | FieldKind.embedded child =>
          createColsAux fs false
            (sql ++ (if first then "" else ", ") ++ fname ++ "_id " ++
              getSQLType FieldKind.integer)
            (fks ++ ", FOREIGN KEY (" ++ fname ++ "_id) REFERENCES " ++
              child ++ "(id)")
      | scalar =>
          createColsAux fs false
            (sql ++ (if first then "" else ", ") ++ fname ++ " " ++
              getSQLType scalar ++
              (if fname = "id" then " PRIMARY KEY" else ""))
            fks

/-- `DataAccessObject::generateCreateTableSQL`: the CREATE TABLE text for
the entity's own table. -/
def generateCreateTableSQL (name : String) (fields : List Field) : String :=
  let cols := createColsAux fields true "" ""
  "CREATE TABLE IF NOT EXISTS " ++ name ++ " (" ++ cols.1 ++ cols.2 ++ ");"

/-- The junction DDL statements executed (in member order) while the CREATE
TABLE text is being generated. -/
def junctionDDLs (name : String) (fields : List Field) : List String :=
  (repeatedChildren fields).map (junctionDDL name)

/-- `Database::getDAO<T>`: return the cached DAO, constructing it on first
use.  Construction runs `executeCreateStmt` (junction DDL first — it fires
during SQL generation — then the entity's CREATE TABLE) and prepares the
three statements; every step succeeds iff the engine accepts this entity's
schema. -/
def getDAO (env : Env) (name : String) (rs : RegState) :
    DAOState × RegState :=
  match daoFind rs.daos name with
  | some d => (d, rs)
  | none =>
      let ok := !env.engineFails name
      let fields := envFields env name
      let tables1 :=
        if ok then
          (repeatedChildren fields).foldl
            (fun ts c => tblCreate ts (junctionName name c)) rs.tables
        else rs.tables
      let tables2 := if ok then tblCreate tables1 name else tables1
      let d : DAOState :=
        { hasInsertStmt := ok, hasSelectAllStmt := ok,
          hasSelectByIdStmt := ok, idCounter := 0,
          writeBuffer := [], flushBuffer := [], isInitialized := ok }
      (d, { rs with daos := rs.daos ++ [(name, d)], tables := tables2 })

/-- The `static_cast<uint32_t>(sqlite3_column_int64 ...)` cast. -/
def u32 (i : Int) : Nat := (i % (U32MOD : Int)).toNat

/-- The value of a row's `id` column (the first column, since the inherited
`id` is the first described member). -/
def rowId (row : Row) : Int :=
  match row with
  | SQLVal.sInt i :: _ => i
  | _ => 0

/-- The `<child>_id` column of a junction-table row. -/
def junctionChildId (row : Row) : Nat :=
  match row with
  | _ :: SQLVal.sInt i :: _ => u32 i
  | _ => 0

/-- The log message of the manual-id policy violation
(`LOG_SAFE(..., spdlog::level::err, "The identifier ... has been manually
set outside of the context of the DataAccessObject")`). -/
def policyViolationMsg : String :=
  "manual id set outside of the DataAccessObject"

/-- Append one `(parent_id, child_id)` row to a junction table.  When the
junction table is absent the prepared statement is null and the step
silently fails, as in `Database::insert`. -/
def junctionAppend (rs : RegState) (jname : String) (pid cid : Nat) :
    RegState :=
  match tblFind rs.tables jname with
  | some rows =>
      { rs with
        tables := tblSet rs.tables jname
          (rows ++ [[SQLVal.sInt (pid : Int), SQLVal.sInt (cid : Int)]]) }
  | none => rs

/-- The repeated-field loop of `Database::insert`: insert every child via
its own DAO (the returned success flag is discarded, as in the source),
then one junction row per child binding the parent's id and the child's
freshly assigned id. -/
def insertKids (childIns : String → RegState → Record → Bool × Record × RegState)
    (jname child : String) (parentId : Nat) :
    List Record → RegState → List Record × RegState
  | [], rs => ([], rs)
  | c :: cs, rs =>
      let t := childIns child rs c
      let rs2 := junctionAppend t.2.2 jname parentId (getId t.2.1)
      let rest := insertKids childIns jname child parentId cs rs2
      (t.2.1 :: rest.1, rest.2)

/-- The member loop of `Database::insert`: produce the bound column values
(in member order) together with the record as mutated through the `T&`
reference (nested inserts assign ids in place).  ForeignKey members bind
only the stored id; embedded members recursively insert the nested object
first and then bind its id; repeated members bind no column but insert
children and junction rows as side effects; scalars bind their value.
Kind/value mismatches cannot arise for records matching their descriptor
(the catch-all models `sqlite3_bind_null`). -/
def insertCells (childIns : String → RegState → Record → Bool × Record × RegState)
    (parentName : String) (parentId : Nat) :
    List Field → List Value → RegState → Row × List Value × RegState
  | [], _, rs => ([], [], rs)
  | (_, FieldKind.foreignKey _) :: fs, Value.vForeignKey fkid cache :: vs, rs =>
      let rest := insertCells childIns parentName parentId fs vs rs
      (SQLVal.sInt (fkid : Int) :: rest.1,
        Value.vForeignKey fkid cache :: rest.2.1, rest.2.2)
  | (_, FieldKind.embedded child) :: fs, Value.vEmbedded sub :: vs, rs =>
      let t := childIns child rs sub
      let rest := insertCells childIns parentName parentId fs vs t.2.2
      (SQLVal.sInt (getId t.2.1 : Int) :: rest.1,
        Value.vEmbedded t.2.1 :: rest.2.1, rest.2.2)
  | (_, FieldKind.repeated child) :: fs, Value.vRepeated subs :: vs, rs =>
      let t := insertKids childIns (junctionName parentName child) child
        parentId subs rs
      let rest := insertCells childIns parentName parentId fs vs t.2
      (rest.1, Value.vRepeated t.1 :: rest.2.1, rest.2.2)
  | (_, FieldKind.integer) :: fs, Value.vInt i :: vs, rs =>
      let rest := insertCells childIns parentName parentId fs vs rs
      (SQLVal.sInt i :: rest.1, Value.vInt i :: rest.2.1, rest.2.2)
  | (_, FieldKind.float) :: fs, Value.vFloat q :: vs, rs =>
      let rest := insertCells childIns parentName parentId fs vs rs
      (SQLVal.sFloat q :: rest.1, Value.vFloat q :: rest.2.1, rest.2.2)
  | (_, FieldKind.text) :: fs, Value.vText s :: vs, rs =>
      let rest := insertCells childIns parentName parentId fs vs rs
      (SQLVal.sText s :: rest.1, Value.vText s :: rest.2.1, rest.2.2)
  | (_, FieldKind.blob) :: fs, Value.vBlob b :: vs, rs =>
      let rest := insertCells childIns parentName parentId fs vs rs
      (SQLVal.sBlob b :: rest.1, Value.vBlob b :: rest.2.1, rest.2.2)
  | (_, _) :: fs, v :: vs, rs =>
      let rest := insertCells childIns parentName parentId fs vs rs
      (SQLVal.sInt 0 :: rest.1, v :: rest.2.1, rest.2.2)
  | _ :: _, [], rs => ([], [], rs)

/-- The tail of `DataAccessObject::insert(T&)` / `Database::insert`: bind
every member (with cascading side effects), then step the insert statement,
appending the row to the entity's table. -/
def dbInsertExec (env : Env)
    (childIns : String → RegState → Record → Bool × Record × RegState)
    (name : String) (rs : RegState) (r : Record) :
    Bool × Record × RegState :=
  let t := insertCells childIns name (getId r) (envFields env name) r rs
  match tblFind t.2.2.tables name with
  | some rows =>
      (true, t.2.1,
        { t.2.2 with tables := tblSet t.2.2.tables name (rows ++ [t.1]) })
  | none => (false, t.2.1, t.2.2)

/-- `DataAccessObject::insert(T&)`: the direct insert.  Null insert
statement degrades to `false`; a sentinel id is assigned `++idCounter_`
(uint32 wrap); a manual id is accepted only when strictly greater than the
counter (the counter is then set to it), otherwise the insert is rejected,
the policy violation logged, and the counter left unchanged. -/
def daoInsert (env : Env) : Nat → String → RegState → Record →
    Bool × Record × RegState
  | 0, _, rs, r => (false, r, rs)
  | fuel + 1, name, rs, r =>
      let p := getDAO env name rs
      let d := p.1
      if !d.hasInsertStmt then (false, r, p.2)
      else if getId r = UNASSIGNED then
        let c := (d.idCounter + 1) % U32MOD
        let rs2 := { p.2 with daos := daoSet p.2.daos name { d with idCounter := c } }
        dbInsertExec env (daoInsert env fuel) name rs2 (setId r c)
      else if getId r ≤ d.idCounter then
        (false, r, { p.2 with log := p.2.log ++ [policyViolationMsg] })
      else
        let rs2 :=
          { p.2 with daos := daoSet p.2.daos name { d with idCounter := getId r } }
        dbInsertExec env (daoInsert env fuel) name rs2 r

/-- `DataAccessObject::addToBuffer`: append a copy of the record to the
write buffer (under the buffer mutex). -/
def daoAddToBuffer (env : Env) (name : String) (rs : RegState) (r : Record) :
    RegState :=
  let p := getDAO env name rs
  { p.2 with
    daos := daoSet p.2.daos name
      { p.1 with writeBuffer := p.1.writeBuffer ++ [r] } }

/-- `DataAccessObject::clearBuffer`: discard both buffers. -/
def daoClearBuffer (env : Env) (name : String) (rs : RegState) : RegState :=
  let p := getDAO env name rs
  { p.2 with
    daos := daoSet p.2.daos name
      { p.1 with writeBuffer := [], flushBuffer := [] } }

/-- The flush loop: insert every buffered record in buffer order; a failed
insert does not abort the rest (`success &= insert(item)`). -/
def flushItems (env : Env) (fuel : Nat) (name : String) :
    List Record → RegState → RegState
  | [], rs => rs
  | x :: xs, rs => flushItems env fuel name xs (daoInsert env fuel name rs x).2.2

/-- `DataAccessObject::insert()` (the flush): swap the write and flush
buffers under the lock, insert every record of the (new) flush buffer in
order without the lock, then clear the flush buffer. -/
def daoFlushInsert (env : Env) (fuel : Nat) (name : String) (rs : RegState) :
    RegState :=
  let p := getDAO env name rs
  let d := p.1
  let swapped :=
    { d with writeBuffer := d.flushBuffer, flushBuffer := d.writeBuffer }
  let rs2 := { p.2 with daos := daoSet p.2.daos name swapped }
  let rs3 := flushItems env fuel name d.writeBuffer rs2
  match daoFind rs3.daos name with
  | some d3 =>
      { rs3 with daos := daoSet rs3.daos name { d3 with flushBuffer := [] } }
  | none => rs3

/-- A default-constructed record.  Modelled from the spec: the
`cpp_sqlite/DBBaseTransferObject.hpp` header is missing from the source
tree, so the inherited `id` member defaults to the unassigned sentinel as
the spec's data model states.  Plain scalar members are default-initialized
(modelled as zero values; no claim observes them), `std::string` and
`std::vector` are empty, `ForeignKey` defaults to `id = 0` with an empty
cache, and nested objects default recursively. -/
def defaultRec (env : Env) : Nat → List Field → List Value
  | 0, _ => []
  | fuel + 1, fields =>
      fields.map fun f =>
        match f.2 with
        | FieldKind.integer =>
            if f.1 = "id" then Value.vInt (UNASSIGNED : Int)
            else Value.vInt 0
        | FieldKind.float => Value.vFloat 0
        | FieldKind.text => Value.vText ""
        | FieldKind.blob => Value.vBlob []
        | FieldKind.embedded c =>
            Value.vEmbedded (defaultRec env fuel (envFields env c))
        | FieldKind.foreignKey _ => Value.vForeignKey 0 none
        | FieldKind.repeated _ => Value.vRepeated []

/-- The child-loading loop of the repeated-field select branch: load every
collected child id via `selectById`, keeping the hits in order. -/
def loadKids (childSel : String → RegState → Nat → Option Record × RegState)
    (child : String) : List Nat → RegState → List Record × RegState
  | [], rs => ([], rs)
  | i :: is, rs =>
      let t := childSel child rs i
      let rest := loadKids childSel child is t.2
      (match t.1 with
       | some c => c :: rest.1
       | none => rest.1, rest.2)

/-- The member loop of `Database::select` decoding one row.  ForeignKey
columns copy only the id (the cache stays empty — no auto-resolve);
embedded columns read the nested id and recursively load the full record,
falling back to a default record with just the id set when the lookup
misses; repeated members query the junction table for this row's id,
collect the child ids and load each child; scalar columns copy their value
(`sqlite3_column_text` of a stored string is never null, and an empty
stored blob leaves the default empty vector, which is the same value). -/
def decodeCells (childSel : String → RegState → Nat → Option Record × RegState)
    (env : Env) (fuel : Nat) (parentName : String) (selfId : Nat) :
    List Field → Row → RegState → List Value × RegState
  | [], _, rs => ([], rs)
  | (_, FieldKind.repeated child) :: fs, cells, rs =>
      let jrows := (tblFind rs.tables (junctionName parentName child)).getD []
      let childIds :=
        (jrows.filter fun row => rowId row = (selfId : Int)).map
          junctionChildId
      let kids := loadKids childSel child childIds rs
      let rest := decodeCells childSel env fuel parentName selfId fs cells kids.2
      (Value.vRepeated kids.1 :: rest.1, rest.2)
  | (_, FieldKind.foreignKey _) :: fs, SQLVal.sInt i :: cells, rs =>
      let rest := decodeCells childSel env fuel parentName selfId fs cells rs
      (Value.vForeignKey (u32 i) none :: rest.1, rest.2)
  | (_, FieldKind.embedded child) :: fs, SQLVal.sInt i :: cells, rs =>
      let nestedId := u32 i
      let t := childSel child rs nestedId
      let v :=
        match t.1 with
        | some crec => Value.vEmbedded crec
        | none =>
            Value.vEmbedded
              (setId (defaultRec env fuel (envFields env child)) nestedId)
      let rest := decodeCells childSel env fuel parentName selfId fs cells t.2
      (v :: rest.1, rest.2)
  | (_, FieldKind.integer) :: fs, SQLVal.sInt i :: cells, rs =>
      let rest := decodeCells childSel env fuel parentName selfId fs cells rs
      (Value.vInt i :: rest.1, rest.2)
  | (_, FieldKind.float) :: fs, SQLVal.sFloat q :: cells, rs =>
      let rest := decodeCells childSel env fuel parentName selfId fs cells rs
      (Value.vFloat q :: rest.1, rest.2)
  | (_, FieldKind.text) :: fs, SQLVal.sText s :: cells, rs =>
      let rest := decodeCells childSel env fuel parentName selfId fs cells rs
      (Value.vText s :: rest.1, rest.2)
  | (_, FieldKind.blob) :: fs, SQLVal.sBlob b :: cells, rs =>
      let rest := decodeCells childSel env fuel parentName selfId fs cells rs
      (Value.vBlob b :: rest.1, rest.2)
  | (fname, k) :: fs, _ :: cells, rs =>
      let rest := decodeCells childSel env fuel parentName selfId fs cells rs
      ((defaultRec env (fuel + 1) [(fname, k)]).headD (Value.vInt 0) :: rest.1,
        rest.2)
  | _ :: _, [], rs => ([], rs)

/-- The row loop of `Database::select`: decode every stepped row in order,
threading the registry state (child selects may construct DAOs). -/
def selectRows (childSel : String → RegState → Nat → Option Record × RegState)
    (env : Env) (fuel : Nat) (name : String) (fields : List Field) :
    List Row → RegState → List Record × RegState
  | [], rs => ([], rs)
  | row :: rest, rs =>
      let t := decodeCells childSel env fuel name (u32 (rowId row)) fields row rs
      let others := selectRows childSel env fuel name fields rest t.2
      (t.1 :: others.1, others.2)

/-- `DataAccessObject::selectById`: null statement degrades to empty;
otherwise decode the rows whose `id` column equals the bound id and return
the first decoded record, if any. -/
def daoSelectById (env : Env) : Nat → String → RegState → Nat →
    Option Record × RegState
  | 0, _, rs, _ => (none, rs)
  | fuel + 1, name, rs, id =>
      let p := getDAO env name rs
      if !p.1.hasSelectByIdStmt then (none, p.2)
      else
        let rows := (tblFind p.2.tables name).getD []
        let hits := rows.filter fun row => rowId row = (id : Int)
        let t := selectRows (daoSelectById env fuel) env fuel name
          (envFields env name) hits p.2
        match t.1 with
        | [] => (none, t.2)
        | r :: _ => (some r, t.2)

/-- `DataAccessObject::selectAll`: null statement degrades to the empty
vector; otherwise decode every row of the table in order. -/
def daoSelectAll (env : Env) : Nat → String → RegState →
    List Record × RegState
  | 0, _, rs => ([], rs)
  | fuel + 1, name, rs =>
      let p := getDAO env name rs
      if !p.1.hasSelectAllStmt then ([], p.2)
      else
        selectRows (daoSelectById env fuel) env fuel name
          (envFields env name) ((tblFind p.2.tables name).getD []) p.2

/-- The state of a `ForeignKey<T>`: the stored id and the `data_` cache. -/
structure FKState where
  fkId : Nat
  cache : Option Record

/-- `ForeignKey<T>::resolve`.  Modelled from the spec: the
`selectCacheById` accessor it calls exists nowhere in the source tree; per
the spec it performs `selectById(id)` through T's Accessor and the result
is cached and returned.  The guard `isSet() && data_ == std::nullopt` and
the assignment `data_ = ...` are taken verbatim from the source.  The last
component reports whether a query was performed. -/
def fkResolve (env : Env) (fuel : Nat) (child : String) (fk : FKState)
    (rs : RegState) : Option Record × FKState × RegState × Bool :=
  if fk.fkId != 0 && fk.cache.isNone then
    let t := daoSelectById env fuel child rs fk.fkId
    (t.1, { fk with cache := t.1 }, t.2, true)
  else
    (fk.cache, fk, rs, false)

/-! ## Scalar-descriptor predicates and the scalar encode/decode lemmas -/

/-- A scalar field kind (Integer, Float, Text, Blob). -/
def isScalarKind (k : FieldKind) : Bool :=
  match k with
  | FieldKind.integer => true
  | FieldKind.float => true
  | FieldKind.text => true
  | FieldKind.blob => true
  | _ => false

/-- All fields of the descriptor are scalar. -/
def allScalar (fields : List Field) : Bool :=
  fields.all fun f => isScalarKind f.2

/-- A value inhabits a scalar kind. -/
def scalarMatch (k : FieldKind) (v : Value) : Bool :=
  match k, v with
  | FieldKind.integer, Value.vInt _ => true
  | FieldKind.float, Value.vFloat _ => true
  | FieldKind.text, Value.vText _ => true
  | FieldKind.blob, Value.vBlob _ => true
  | _, _ => false

/-- The values match the field kinds position by position. -/
def matchesKinds (fields : List Field) (vals : List Value) : Bool :=
  match fields, vals with
  | [], [] => true
  | f :: fs, v :: vs => scalarMatch f.2 v && matchesKinds fs vs
  | _, _ => false

/-- The column value bound for a scalar member value. -/
def encodeScalar (v : Value) : SQLVal :=
  match v with
  | Value.vInt i => SQLVal.sInt i
  | Value.vFloat q => SQLVal.sFloat q
  | Value.vText s => SQLVal.sText s
  | Value.vBlob b => SQLVal.sBlob b
  | _ => SQLVal.sInt 0

theorem getId_cons (n : Nat) (vs : List Value) :
    getId (Value.vInt (n : Int) :: vs) = n := by
  simp [getId]

theorem setId_cons (i : Int) (vs : List Value) (n : Nat) :
    setId (Value.vInt i :: vs) n = Value.vInt (n : Int) :: vs := by
  simp [setId]

/-! ### Association-list lemmas -/

theorem daoFind_cons (n : String) (d : DAOState) (ds : List (String × DAOState))
    (name : String) :
    daoFind ((n, d) :: ds) name = if n = name then some d else daoFind ds name := by
  by_cases h : n = name <;> simp [daoFind, List.find?, h]

theorem daoFind_daoSet_self (ds : List (String × DAOState)) (name : String)
    (d d' : DAOState) (h : daoFind ds name = some d) :
    daoFind (daoSet ds name d') name = some d' := by
  induction ds with
  | nil => simp [daoFind, List.find?] at h
  | cons hd tl ih =>
      obtain ⟨n, d0⟩ := hd
      by_cases hn : n = name
      · simp [daoSet, hn, daoFind_cons]
      · rw [daoFind_cons] at h
        simp only [hn, if_false] at h
        simp [daoSet, hn, daoFind_cons, ih h]

theorem daoFind_append_none (ds : List (String × DAOState)) (name : String)
    (d : DAOState) (h : daoFind ds name = none) :
    daoFind (ds ++ [(name, d)]) name = some d := by
  induction ds with
  | nil => simp [daoFind, List.find?]
  | cons hd tl ih =>
      obtain ⟨n, d0⟩ := hd
      by_cases hn : n = name
      · rw [daoFind_cons] at h; simp [hn] at h
      · rw [daoFind_cons] at h
        simp only [hn, if_false] at h
        rw [List.cons_append, daoFind_cons]
        simp [hn, ih h]

theorem tblFind_cons (n : String) (rows : List Row)
    (ts : List (String × List Row)) (name : String) :
    tblFind ((n, rows) :: ts) name =
      if n = name then some rows else tblFind ts name := by
  by_cases h : n = name <;> simp [tblFind, List.find?, h]

theorem tblFind_tblSet_self (ts : List (String × List Row)) (name : String)
    (rows rows' : List Row) (h : tblFind ts name = some rows) :
    tblFind (tblSet ts name rows') name = some rows' := by
  induction ts with
  | nil => simp [tblFind, List.find?] at h
  | cons hd tl ih =>
      obtain ⟨n, r0⟩ := hd
      by_cases hn : n = name
      · simp [tblSet, hn, tblFind_cons]
      · rw [tblFind_cons] at h
        simp only [hn, if_false] at h
        simp [tblSet, hn, tblFind_cons, ih h]

theorem tblFind_tblSet_other (ts : List (String × List Row))
    (name other : String) (rows' : List Row) (h : other ≠ name) :
    tblFind (tblSet ts name rows') other = tblFind ts other := by
  induction ts with
  | nil => simp [tblSet]
  | cons hd tl ih =>
      obtain ⟨n, r0⟩ := hd
      by_cases hn : n = name
      · subst hn
        have hns : n ≠ other := fun hh => h hh.symm
        simp [tblSet, tblFind_cons, hns]
      · simp [tblSet, hn, tblFind_cons, ih]

/-- Cache hit: `getDAO` returns the cached DAO and leaves the state alone. -/
theorem getDAO_found (env : Env) (name : String) (rs : RegState)
    (d : DAOState) (h : daoFind rs.daos name = some d) :
    getDAO env name rs = (d, rs) := by
  simp [getDAO, h]

/-! ### Scalar insert/decode round-trip lemmas -/

theorem insertCells_scalar
    (ci : String → RegState → Record → Bool × Record × RegState)
    (pn : String) (pid : Nat) :
    ∀ (fields : List Field) (vs : List Value) (rs : RegState),
      allScalar fields = true → matchesKinds fields vs = true →
      insertCells ci pn pid fields vs rs = (vs.map encodeScalar, vs, rs) := by
  intro fields
  induction fields with
  | nil =>
      intro vs rs _ hm
      cases vs with
      | nil => simp [insertCells]
      | cons v vs => simp [matchesKinds] at hm
  | cons f fs ih =>
      intro vs rs ha hm
      cases vs with
      | nil => simp [matchesKinds] at hm
      | cons v vs =>
          obtain ⟨fname, k⟩ := f
          simp only [allScalar, List.all_cons, Bool.and_eq_true] at ha
          simp only [matchesKinds, Bool.and_eq_true] at hm
          have hrec := ih vs rs (by simpa [allScalar] using ha.2) hm.2
          cases k <;> cases v <;>
            simp_all [insertCells, isScalarKind, scalarMatch, encodeScalar]

theorem decodeCells_scalar
    (cs : String → RegState → Nat → Option Record × RegState)
    (env : Env) (fuel : Nat) (pn : String) (sid : Nat) :
    ∀ (fields : List Field) (vs : List Value) (rs : RegState),
      allScalar fields = true → matchesKinds fields vs = true →
      decodeCells cs env fuel pn sid fields (vs.map encodeScalar) rs =
        (vs, rs) := by
  intro fields
  induction fields with
  | nil =>
      intro vs rs _ hm
      cases vs with
      | nil => simp [decodeCells]
      | cons v vs => simp [matchesKinds] at hm
  | cons f fs ih =>
      intro vs rs ha hm
      cases vs with
      | nil => simp [matchesKinds] at hm
      | cons v vs =>
          obtain ⟨fname, k⟩ := f
          simp only [allScalar, List.all_cons, Bool.and_eq_true] at ha
          simp only [matchesKinds, Bool.and_eq_true] at hm
          have hrec := ih vs rs (by simpa [allScalar] using ha.2) hm.2
          cases k <;> cases v <;>
            simp_all [decodeCells, isScalarKind, scalarMatch, encodeScalar]

/-- One direct insert of an all-scalar record with the sentinel id:
`++idCounter_` is assigned, the bound row is appended, the call succeeds. -/
theorem daoInsert_scalar_auto (env : Env) (name : String) (rest : List Field)
    (vs : List Value) (rs : RegState) (d : DAOState) (rows : List Row)
    (fuel : Nat)
    (hf : envFields env name = ("id", FieldKind.integer) :: rest)
    (hs : allScalar rest = true) (hm : matchesKinds rest vs = true)
    (hd : daoFind rs.daos name = some d) (hi : d.hasInsertStmt = true)
    (ht : tblFind rs.tables name = some rows)
    (hc : d.idCounter + 1 < U32MOD) :
    daoInsert env (fuel + 1) name rs (Value.vInt (UNASSIGNED : Int) :: vs) =
      (true, Value.vInt ((d.idCounter + 1 : Nat) : Int) :: vs,
        { daos := daoSet rs.daos name { d with idCounter := d.idCounter + 1 },
          tables := tblSet rs.tables name
            (rows ++
              [SQLVal.sInt ((d.idCounter + 1 : Nat) : Int) :: vs.map encodeScalar]),
          log := rs.log }) := by
  have hg := getDAO_found env name rs _ hd
  have hcells := insertCells_scalar (daoInsert env fuel) name
    (d.idCounter + 1) rest vs
    { rs with daos := daoSet rs.daos name { d with idCounter := d.idCounter + 1 } }
    hs hm
  simp only [hi] at hcells
  simp only [daoInsert, hg, hi, Bool.not_true, Bool.false_eq_true, if_false,
    getId_cons, if_true, Nat.mod_eq_of_lt hc, setId, dbInsertExec, hf,
    insertCells, eq_self_iff_true, ite_true]
  rw [hcells]
  simp [ht]

/-- One direct insert of an all-scalar record with a manual id strictly
greater than the counter: accepted, and the counter becomes that id. -/
theorem daoInsert_scalar_manual (env : Env) (name : String)
    (rest : List Field) (vs : List Value) (rs : RegState) (d : DAOState)
    (rows : List Row) (fuel m : Nat)
    (hf : envFields env name = ("id", FieldKind.integer) :: rest)
    (hs : allScalar rest = true) (hm : matchesKinds rest vs = true)
    (hd : daoFind rs.daos name = some d) (hi : d.hasInsertStmt = true)
    (ht : tblFind rs.tables name = some rows)
    (hne : m ≠ UNASSIGNED) (hgt : d.idCounter < m) :
    daoInsert env (fuel + 1) name rs (Value.vInt (m : Int) :: vs) =
      (true, Value.vInt (m : Int) :: vs,
        { daos := daoSet rs.daos name { d with idCounter := m },
          tables := tblSet rs.tables name
            (rows ++ [SQLVal.sInt (m : Int) :: vs.map encodeScalar]),
          log := rs.log }) := by
  have hg := getDAO_found env name rs _ hd
  have hle : ¬ m ≤ d.idCounter := by omega
  have hcells := insertCells_scalar (daoInsert env fuel) name m rest vs
    { rs with daos := daoSet rs.daos name { d with idCounter := m } } hs hm
  simp only [hi] at hcells
  simp only [daoInsert, hg, hi, Bool.not_true, Bool.false_eq_true, if_false,
    getId_cons, hne, hle, dbInsertExec, hf, insertCells, eq_self_iff_true,
    ite_true, ite_false]
  rw [hcells]
  simp [ht]

/-- A manual id at most the counter is rejected before anything touches the
engine: `false` is returned, the violation is logged, the record, the
counter, the tables and the buffers are untouched. -/
theorem daoInsert_reject (env : Env) (name : String) (rs : RegState)
    (d : DAOState) (r : Record) (fuel : Nat)
    (hd : daoFind rs.daos name = some d) (hi : d.hasInsertStmt = true)
    (hne : getId r ≠ UNASSIGNED) (hle : getId r ≤ d.idCounter) :
    daoInsert env (fuel + 1) name rs r =
      (false, r, { rs with log := rs.log ++ [policyViolationMsg] }) := by
  have hg := getDAO_found env name rs _ hd
  simp [daoInsert, hg, hi, hne, hle]

/-- Selecting by id when exactly one stored row carries that id in its `id`
column: the decoded all-scalar record comes back, the state is unchanged. -/
theorem daoSelectById_scalar (env : Env) (name : String) (rest : List Field)
    (vs : List Value) (rs : RegState) (d : DAOState) (rows : List Row)
    (fuel n : Nat)
    (hf : envFields env name = ("id", FieldKind.integer) :: rest)
    (hs : allScalar rest = true) (hm : matchesKinds rest vs = true)
    (hd : daoFind rs.daos name = some d) (hi : d.hasSelectByIdStmt = true)
    (ht : tblFind rs.tables name = some rows)
    (hfilter : rows.filter (fun row => rowId row = (n : Int)) =
      [SQLVal.sInt (n : Int) :: vs.map encodeScalar]) :
    daoSelectById env (fuel + 1) name rs n =
      (some (Value.vInt (n : Int) :: vs), rs) := by
  have hg := getDAO_found env name rs _ hd
  have hdec := decodeCells_scalar (daoSelectById env fuel) env fuel name
    (u32 (rowId (SQLVal.sInt (n : Int) :: vs.map encodeScalar))) rest vs
    rs hs hm
  simp only [daoSelectById, hg, hi, Bool.not_true, Bool.false_eq_true,
    if_false, ht, Option.getD_some, hfilter, selectRows, decodeCells, hf,
    hdec, ite_false]

/-! ## Demo environments used by scenario conjuncts and witnesses -/

/-- The spec's `Item{id, name: Text, price: Float}` entity on an in-memory
registry whose engine accepts every schema. -/
def itemEnv : Env :=
  { schemas :=
      [("Item",
        [("id", FieldKind.integer), ("name", FieldKind.text),
         ("price", FieldKind.float)])],
    engineFails := fun _ => false }

/-- `Item{id = auto, name = "Widget", price = 19.99}`. -/
def widgetRec : Record :=
  [Value.vInt (UNASSIGNED : Int), Value.vText "Widget",
   Value.vFloat (1999 / 100)]

/-! ## Claims -/

/-- C8: for every record type and Registry, `getDAO<T>` constructs the
Accessor at most once: a cache hit returns the cached DAO and leaves the
registry untouched; a cache miss constructs, caches, and every later call
returns that same cached instance (the second call is a pure read). -/
theorem claim_C8_accessor_cached_once (env : Env) (name : String)
    (rs : RegState) :
    (∀ d, daoFind rs.daos name = some d → getDAO env name rs = (d, rs)) ∧
    (daoFind rs.daos name = none →
      daoFind (getDAO env name rs).2.daos name = some (getDAO env name rs).1) ∧
    getDAO env name (getDAO env name rs).2 =
      ((getDAO env name rs).1, (getDAO env name rs).2) := by
  refine ⟨fun d hd => getDAO_found env name rs d hd, ?_, ?_⟩
  · intro hnone
    simp only [getDAO, hnone]
    exact daoFind_append_none _ _ _ hnone
  · cases hfind : daoFind rs.daos name with
    | some d =>
        rw [getDAO_found env name rs d hfind]
        exact getDAO_found env name rs d hfind
    | none =>
        have hcached : daoFind (getDAO env name rs).2.daos name =
            some (getDAO env name rs).1 := by
          simp only [getDAO, hfind]
          exact daoFind_append_none _ _ _ hfind
        exact getDAO_found env name _ _ hcached

/-- Witness for C8 at a concrete miss-then-hit sequence. -/
theorem claim_C8_witness :
    daoFind freshReg.daos "Item" = none ∧
    daoFind (getDAO itemEnv "Item" freshReg).2.daos "Item" =
      some (getDAO itemEnv "Item" freshReg).1 := by
  refine ⟨rfl, ?_⟩
  exact (claim_C8_accessor_cached_once itemEnv "Item" freshReg).2.1 rfl

/-- C2: the direct insert's id policy, for an initialized Accessor of an
all-scalar entity.  A sentinel id gets `++counter` assigned and the insert
succeeds; a manual id strictly greater than the counter is accepted and
the counter is set to it; a manual id at most the counter is rejected:
`false`, a logged violation, and record, counter, buffers and tables all
unchanged. -/
theorem claim_C2_manual_id_policy (env : Env) (name : String)
    (rest : List Field) (vs : List Value) (rs : RegState) (d : DAOState)
    (rows : List Row) (fuel : Nat)
    (hf : envFields env name = ("id", FieldKind.integer) :: rest)
    (hs : allScalar rest = true) (hm : matchesKinds rest vs = true)
    (hd : daoFind rs.daos name = some d) (hi : d.hasInsertStmt = true)
    (ht : tblFind rs.tables name = some rows) :
    (d.idCounter + 1 < U32MOD →
      daoInsert env (fuel + 1) name rs (Value.vInt (UNASSIGNED : Int) :: vs) =
        (true, Value.vInt ((d.idCounter + 1 : Nat) : Int) :: vs,
          { daos := daoSet rs.daos name { d with idCounter := d.idCounter + 1 },
            tables := tblSet rs.tables name
              (rows ++
                [SQLVal.sInt ((d.idCounter + 1 : Nat) : Int) ::
                  vs.map encodeScalar]),
            log := rs.log })) ∧
    (∀ m : Nat, m ≠ UNASSIGNED → d.idCounter < m →
      daoInsert env (fuel + 1) name rs (Value.vInt (m : Int) :: vs) =
        (true, Value.vInt (m : Int) :: vs,
          { daos := daoSet rs.daos name { d with idCounter := m },
            tables := tblSet rs.tables name
              (rows ++ [SQLVal.sInt (m : Int) :: vs.map encodeScalar]),
            log := rs.log })) ∧
    (∀ m : Nat, m ≠ UNASSIGNED → m ≤ d.idCounter →
      daoInsert env (fuel + 1) name rs (Value.vInt (m : Int) :: vs) =
        (false, Value.vInt (m : Int) :: vs,
          { rs with log := rs.log ++ [policyViolationMsg] })) := by
  refine ⟨?_, ?_, ?_⟩
  · intro hc
    exact daoInsert_scalar_auto env name rest vs rs d rows fuel hf hs hm hd
      hi ht hc
  · intro m hne hgt
    exact daoInsert_scalar_manual env name rest vs rs d rows fuel m hf hs hm
      hd hi ht hne hgt
  · intro m hne hle
    exact daoInsert_reject env name rs d (Value.vInt (m : Int) :: vs) fuel hd
      hi (by rw [getId_cons]; exact hne) (by rw [getId_cons]; exact hle)

/-- Witness for C2: rejecting manual id 0 on a fresh `Item` Accessor. -/
theorem claim_C2_witness :
    envFields itemEnv "Item" =
      ("id", FieldKind.integer) ::
        [("name", FieldKind.text), ("price", FieldKind.float)] ∧
    daoFind (getDAO itemEnv "Item" freshReg).2.daos "Item" =
      some (getDAO itemEnv "Item" freshReg).1 ∧
    daoInsert itemEnv 1 "Item" (getDAO itemEnv "Item" freshReg).2
        (Value.vInt ((0 : Nat) : Int) ::
          [Value.vText "w", Value.vFloat 1]) =
      (false,
        Value.vInt ((0 : Nat) : Int) :: [Value.vText "w", Value.vFloat 1],
        { (getDAO itemEnv "Item" freshReg).2 with
          log := (getDAO itemEnv "Item" freshReg).2.log ++
            [policyViolationMsg] }) := by
  refine ⟨rfl, rfl, ?_⟩
  exact (claim_C2_manual_id_policy itemEnv "Item"
    [("name", FieldKind.text), ("price", FieldKind.float)]
    [Value.vText "w", Value.vFloat 1] (getDAO itemEnv "Item" freshReg).2
    (getDAO itemEnv "Item" freshReg).1 [] 0 rfl rfl rfl rfl rfl rfl).2.2 0
    (by decide) (by decide)

/-- Filtering a table whose existing rows all miss the predicate and whose
appended row hits it yields exactly that row. -/
theorem filter_append_fresh {α : Type} (l : List α) (p : α → Bool) (a : α)
    (hall : ∀ x ∈ l, p x = false) (ha : p a = true) :
    (l ++ [a]).filter p = [a] := by
  induction l with
  | nil => simp [List.filter, ha]
  | cons b l ih =>
      have hb := hall b (by simp)
      simp only [List.cons_append, List.filter, hb]
      exact ih fun x hx => hall x (by simp [hx])

/-- The registry state after constructing the `Item` Accessor. -/
def itemRegState : RegState := (getDAO itemEnv "Item" freshReg).2

/-- The `Item` Accessor fresh out of its constructor. -/
def itemDAO : DAOState := (getDAO itemEnv "Item" freshReg).1

/-- C1: scalar round-trip.  For every all-scalar entity, a successful direct
insert makes `selectById` of the record's id return a record equal to it in
every scalar field — both for a sentinel-id record (which receives the
auto-assigned id `counter + 1`) and for a manual-id record with
`id > counter` (which keeps its id); and on a fresh in-memory registry,
inserting `Item{id=auto, name="Widget", price=19.99}` makes `selectAll`
return exactly one row `{id=1, name="Widget", price=19.99}`. -/
theorem claim_C1_scalar_roundtrip :
    (∀ (env : Env) (name : String) (rest : List Field) (vs : List Value)
      (rs : RegState) (d : DAOState) (rows : List Row) (fuel : Nat),
      envFields env name = ("id", FieldKind.integer) :: rest →
      allScalar rest = true → matchesKinds rest vs = true →
      daoFind rs.daos name = some d →
      d.hasInsertStmt = true → d.hasSelectByIdStmt = true →
      tblFind rs.tables name = some rows →
      d.idCounter + 1 < U32MOD →
      (∀ row ∈ rows, rowId row ≠ ((d.idCounter + 1 : Nat) : Int)) →
      (daoInsert env (fuel + 1) name rs
        (Value.vInt (UNASSIGNED : Int) :: vs)).1 = true ∧
      (daoInsert env (fuel + 1) name rs
        (Value.vInt (UNASSIGNED : Int) :: vs)).2.1 =
        Value.vInt ((d.idCounter + 1 : Nat) : Int) :: vs ∧
      (daoSelectById env (fuel + 1) name
        (daoInsert env (fuel + 1) name rs
          (Value.vInt (UNASSIGNED : Int) :: vs)).2.2
        (d.idCounter + 1)).1 =
        some (Value.vInt ((d.idCounter + 1 : Nat) : Int) :: vs)) ∧
    (∀ (env : Env) (name : String) (rest : List Field) (vs : List Value)
      (rs : RegState) (d : DAOState) (rows : List Row) (fuel m : Nat),
      envFields env name = ("id", FieldKind.integer) :: rest →
      allScalar rest = true → matchesKinds rest vs = true →
      daoFind rs.daos name = some d →
      d.hasInsertStmt = true → d.hasSelectByIdStmt = true →
      tblFind rs.tables name = some rows →
      m ≠ UNASSIGNED → d.idCounter < m →
      (∀ row ∈ rows, rowId row ≠ (m : Int)) →
      (daoInsert env (fuel + 1) name rs
        (Value.vInt (m : Int) :: vs)).1 = true ∧
      (daoInsert env (fuel + 1) name rs
        (Value.vInt (m : Int) :: vs)).2.1 = Value.vInt (m : Int) :: vs ∧
      (daoSelectById env (fuel + 1) name
        (daoInsert env (fuel + 1) name rs
          (Value.vInt (m : Int) :: vs)).2.2 m).1 =
        some (Value.vInt (m : Int) :: vs)) ∧
    (daoSelectAll itemEnv 2 "Item"
      (daoInsert itemEnv 2 "Item" freshReg widgetRec).2.2).1 =
      [[Value.vInt 1, Value.vText "Widget", Value.vFloat (1999 / 100)]] := by
  refine ⟨?_, ?_, rfl⟩
  · intro env name rest vs rs d rows fuel hf hs hm hd hi hsb ht hc hfresh
    have hins := daoInsert_scalar_auto env name rest vs rs d rows fuel hf hs
      hm hd hi ht hc
    rw [hins]
    refine ⟨rfl, rfl, ?_⟩
    have hfind' := daoFind_daoSet_self rs.daos name d
      { d with idCounter := d.idCounter + 1 } hd
    have htbl' := tblFind_tblSet_self rs.tables name rows
      (rows ++
        [SQLVal.sInt ((d.idCounter + 1 : Nat) : Int) :: vs.map encodeScalar])
      ht
    have hflt : (rows ++
        [SQLVal.sInt ((d.idCounter + 1 : Nat) : Int) ::
          vs.map encodeScalar]).filter
          (fun row => rowId row = ((d.idCounter + 1 : Nat) : Int)) =
        [SQLVal.sInt ((d.idCounter + 1 : Nat) : Int) :: vs.map encodeScalar] := by
      refine filter_append_fresh _ _ _ (fun x hx => ?_) (by simp [rowId])
      exact decide_eq_false (hfresh x hx)
    have hsel := daoSelectById_scalar env name rest vs
      { daos := daoSet rs.daos name { d with idCounter := d.idCounter + 1 },
        tables := tblSet rs.tables name
          (rows ++
            [SQLVal.sInt ((d.idCounter + 1 : Nat) : Int) ::
              vs.map encodeScalar]),
        log := rs.log }
      { d with idCounter := d.idCounter + 1 }
      (rows ++
        [SQLVal.sInt ((d.idCounter + 1 : Nat) : Int) :: vs.map encodeScalar])
      fuel (d.idCounter + 1) hf hs hm hfind' hsb htbl' hflt
    rw [hsel]
  · intro env name rest vs rs d rows fuel m hf hs hm hd hi hsb ht hne hgt
      hfresh
    have hins := daoInsert_scalar_manual env name rest vs rs d rows fuel m
      hf hs hm hd hi ht hne hgt
    rw [hins]
    refine ⟨rfl, rfl, ?_⟩
    have hfind' := daoFind_daoSet_self rs.daos name d
      { d with idCounter := m } hd
    have htbl' := tblFind_tblSet_self rs.tables name rows
      (rows ++ [SQLVal.sInt (m : Int) :: vs.map encodeScalar]) ht
    have hflt : (rows ++
        [SQLVal.sInt (m : Int) :: vs.map encodeScalar]).filter
          (fun row => rowId row = (m : Int)) =
        [SQLVal.sInt (m : Int) :: vs.map encodeScalar] := by
      refine filter_append_fresh _ _ _ (fun x hx => ?_) (by simp [rowId])
      exact decide_eq_false (hfresh x hx)
    have hsel := daoSelectById_scalar env name rest vs
      { daos := daoSet rs.daos name { d with idCounter := m },
        tables := tblSet rs.tables name
          (rows ++ [SQLVal.sInt (m : Int) :: vs.map encodeScalar]),
        log := rs.log }
      { d with idCounter := m }
      (rows ++ [SQLVal.sInt (m : Int) :: vs.map encodeScalar])
      fuel m hf hs hm hfind' hsb htbl' hflt
    rw [hsel]

/-- Witness for C1 at the `Item` Accessor on a fresh registry: the auto-id
case at the sentinel and the manual-id case at `id = 5`. -/
theorem claim_C1_witness :
    envFields itemEnv "Item" =
      ("id", FieldKind.integer) ::
        [("name", FieldKind.text), ("price", FieldKind.float)] ∧
    allScalar [("name", FieldKind.text), ("price", FieldKind.float)] = true ∧
    matchesKinds [("name", FieldKind.text), ("price", FieldKind.float)]
      [Value.vText "Widget", Value.vFloat (1999 / 100)] = true ∧
    daoFind itemRegState.daos "Item" = some itemDAO ∧
    itemDAO.hasInsertStmt = true ∧
    itemDAO.hasSelectByIdStmt = true ∧
    tblFind itemRegState.tables "Item" = some [] ∧
    itemDAO.idCounter + 1 < U32MOD ∧
    (∀ row ∈ ([] : List Row),
      rowId row ≠ ((itemDAO.idCounter + 1 : Nat) : Int)) ∧
    (daoSelectById itemEnv 1 "Item"
      (daoInsert itemEnv 1 "Item" itemRegState
        (Value.vInt (UNASSIGNED : Int) ::
          [Value.vText "Widget", Value.vFloat (1999 / 100)])).2.2
      (itemDAO.idCounter + 1)).1 =
      some (Value.vInt ((itemDAO.idCounter + 1 : Nat) : Int) ::
        [Value.vText "Widget", Value.vFloat (1999 / 100)]) ∧
    (5 : Nat) ≠ UNASSIGNED ∧
    itemDAO.idCounter < 5 ∧
    (∀ row ∈ ([] : List Row), rowId row ≠ ((5 : Nat) : Int)) ∧
    (daoSelectById itemEnv 1 "Item"
      (daoInsert itemEnv 1 "Item" itemRegState
        (Value.vInt ((5 : Nat) : Int) ::
          [Value.vText "Widget", Value.vFloat (1999 / 100)])).2.2 5).1 =
      some (Value.vInt ((5 : Nat) : Int) ::
        [Value.vText "Widget", Value.vFloat (1999 / 100)]) := by
  refine ⟨rfl, rfl, rfl, rfl, rfl, rfl, rfl, by decide, by simp, ?_,
    by decide, by decide, by simp, ?_⟩
  · exact (claim_C1_scalar_roundtrip.1 itemEnv "Item"
      [("name", FieldKind.text), ("price", FieldKind.float)]
      [Value.vText "Widget", Value.vFloat (1999 / 100)]
      itemRegState itemDAO [] 0 rfl rfl rfl rfl rfl rfl rfl (by decide)
      (by simp)).2.2
  · exact (claim_C1_scalar_roundtrip.2.1 itemEnv "Item"
      [("name", FieldKind.text), ("price", FieldKind.float)]
      [Value.vText "Widget", Value.vFloat (1999 / 100)]
      itemRegState itemDAO [] 0 5 rfl rfl rfl rfl rfl rfl rfl (by decide)
      (by decide) (by simp)).2.2

/-! ## Buffered-pipeline lemmas -/

theorem daoSet_daoSet (ds : List (String × DAOState)) (n : String)
    (d1 d2 : DAOState) : daoSet (daoSet ds n d1) n d2 = daoSet ds n d2 := by
  induction ds with
  | nil => simp [daoSet]
  | cons hd tl ih =>
      obtain ⟨m, d0⟩ := hd
      by_cases h : m = n <;> simp [daoSet, h, ih]

theorem tblSet_tblSet (ts : List (String × List Row)) (n : String)
    (r1 r2 : List Row) : tblSet (tblSet ts n r1) n r2 = tblSet ts n r2 := by
  induction ts with
  | nil => simp [tblSet]
  | cons hd tl ih =>
      obtain ⟨m, r0⟩ := hd
      by_cases h : m = n <;> simp [tblSet, h, ih]

theorem daoSet_self (ds : List (String × DAOState)) (n : String)
    (d : DAOState) (h : daoFind ds n = some d) : daoSet ds n d = ds := by
  induction ds with
  | nil => simp [daoSet]
  | cons hd tl ih =>
      obtain ⟨m, d0⟩ := hd
      rw [daoFind_cons] at h
      by_cases hm : m = n
      · simp only [hm, if_true] at h
        cases h
        simp [daoSet, hm]
      · simp only [hm, if_false] at h
        simp [daoSet, hm, ih h]

theorem tblSet_self (ts : List (String × List Row)) (n : String)
    (rows : List Row) (h : tblFind ts n = some rows) :
    tblSet ts n rows = ts := by
  induction ts with
  | nil => simp [tblSet]
  | cons hd tl ih =>
      obtain ⟨m, r0⟩ := hd
      rw [tblFind_cons] at h
      by_cases hm : m = n
      · simp only [hm, if_true] at h
        cases h
        simp [tblSet, hm]
      · simp only [hm, if_false] at h
        simp [tblSet, hm, ih h]

theorem daoAddToBuffer_eq (env : Env) (name : String) (rs : RegState)
    (d : DAOState) (r : Record) (hd : daoFind rs.daos name = some d) :
    daoAddToBuffer env name rs r =
      { rs with daos :=
          daoSet rs.daos name { d with writeBuffer := d.writeBuffer ++ [r] } } := by
  simp [daoAddToBuffer, getDAO_found env name rs d hd]

theorem daoClearBuffer_eq (env : Env) (name : String) (rs : RegState)
    (d : DAOState) (hd : daoFind rs.daos name = some d) :
    daoClearBuffer env name rs =
      { rs with daos :=
          daoSet rs.daos name { d with writeBuffer := [], flushBuffer := [] } } := by
  simp [daoClearBuffer, getDAO_found env name rs d hd]

/-- The rows produced by flushing sentinel-id scalar records when the
counter starts at `c`: ids `c+1, c+2, ...` in buffer order. -/
def numberedRows (c : Nat) : List (List Value) → List Row
  | [] => []
  | vs :: rest =>
      (SQLVal.sInt ((c + 1 : Nat) : Int) :: vs.map encodeScalar) ::
        numberedRows (c + 1) rest

/-- The flush loop over a batch of sentinel-id all-scalar records: every
record is inserted in buffer order with consecutive counter ids. -/
theorem flushItems_scalar (env : Env) (name : String) (rest : List Field)
    (fuel : Nat)
    (hf : envFields env name = ("id", FieldKind.integer) :: rest)
    (hs : allScalar rest = true) :
    ∀ (vss : List (List Value)) (rs : RegState) (d : DAOState)
      (rows : List Row),
      (∀ vs ∈ vss, matchesKinds rest vs = true) →
      daoFind rs.daos name = some d → d.hasInsertStmt = true →
      tblFind rs.tables name = some rows →
      d.idCounter + vss.length < U32MOD →
      flushItems env (fuel + 1) name
        (vss.map fun vs => Value.vInt (UNASSIGNED : Int) :: vs) rs =
        { daos := daoSet rs.daos name
            { d with idCounter := d.idCounter + vss.length },
          tables := tblSet rs.tables name
            (rows ++ numberedRows d.idCounter vss),
          log := rs.log } := by
  intro vss
  induction vss with
  | nil =>
      intro rs d rows _ hd hi ht _
      simp only [List.map_nil, flushItems, List.length_nil, Nat.add_zero,
        numberedRows, List.append_nil]
      have : ({ d with idCounter := d.idCounter } : DAOState) = d := rfl
      rw [this, daoSet_self rs.daos name d hd,
        tblSet_self rs.tables name rows ht]
  | cons vs vss ih =>
      intro rs d rows hms hd hi ht hc
      simp only [List.map_cons, flushItems]
      rw [daoInsert_scalar_auto env name rest vs rs d rows fuel hf hs
        (hms vs (by simp)) hd hi ht (by simp at hc; omega)]
      have hrec := ih
        { daos := daoSet rs.daos name { d with idCounter := d.idCounter + 1 },
          tables := tblSet rs.tables name
            (rows ++
              [SQLVal.sInt ((d.idCounter + 1 : Nat) : Int) ::
                vs.map encodeScalar]),
          log := rs.log }
        { d with idCounter := d.idCounter + 1 }
        (rows ++
          [SQLVal.sInt ((d.idCounter + 1 : Nat) : Int) :: vs.map encodeScalar])
        (fun v hv => hms v (by simp [hv]))
        (daoFind_daoSet_self rs.daos name d _ hd) hi
        (tblFind_tblSet_self rs.tables name rows _ ht)
        (by simp at hc ⊢; omega)
      rw [hrec]
      have h1 : d.idCounter + 1 + vss.length =
          d.idCounter + (vs :: vss).length := by
        simp
        omega
      simp only [daoSet_daoSet, tblSet_tblSet, numberedRows,
        List.append_assoc, List.singleton_append, h1]

/-- The DAO after the flush's buffer swap when the write buffer held the
sentinel-id scalar records of `vss` and the flush buffer was empty. -/
def swapBuf (d : DAOState) (vss : List (List Value)) : DAOState :=
  { d with writeBuffer := [],
           flushBuffer := vss.map fun vs =>
             Value.vInt (UNASSIGNED : Int) :: vs }

/-- The whole flush on a buffer of sentinel-id all-scalar records: swap,
insert everything in buffer order, clear the flush buffer. -/
theorem daoFlushInsert_scalar (env : Env) (name : String) (rest : List Field)
    (fuel : Nat) (vss : List (List Value)) (rs : RegState) (d : DAOState)
    (rows : List Row)
    (hf : envFields env name = ("id", FieldKind.integer) :: rest)
    (hs : allScalar rest = true)
    (hms : ∀ vs ∈ vss, matchesKinds rest vs = true)
    (hd : daoFind rs.daos name = some d) (hi : d.hasInsertStmt = true)
    (ht : tblFind rs.tables name = some rows)
    (hwb : d.writeBuffer =
      vss.map fun vs => Value.vInt (UNASSIGNED : Int) :: vs)
    (hfb : d.flushBuffer = [])
    (hc : d.idCounter + vss.length < U32MOD) :
    daoFlushInsert env (fuel + 1) name rs =
      { daos := daoSet rs.daos name
          { d with idCounter := d.idCounter + vss.length,
                   writeBuffer := [], flushBuffer := [] },
        tables := tblSet rs.tables name (rows ++ numberedRows d.idCounter vss),
        log := rs.log } := by
  simp only [daoFlushInsert, getDAO_found env name rs d hd, hwb, hfb]
  have hstep := flushItems_scalar env name rest fuel hf hs vss
    { rs with daos := daoSet rs.daos name (swapBuf d vss) } (swapBuf d vss)
    rows hms (daoFind_daoSet_self rs.daos name d _ hd) hi ht hc
  have hfold : ({ d with writeBuffer := ([] : List Record),
                         flushBuffer := vss.map fun vs =>
                           Value.vInt (UNASSIGNED : Int) :: vs } : DAOState) =
      swapBuf d vss := rfl
  rw [hfold, hstep]
  simp only [swapBuf, daoSet_daoSet]
  rw [daoFind_daoSet_self rs.daos name d _ hd]

/-- A DAO holding two buffered sentinel-id records. -/
def bufTwo (d : DAOState) (vs1 vs2 : List Value) : DAOState :=
  { d with writeBuffer :=
      [Value.vInt (UNASSIGNED : Int) :: vs1,
       Value.vInt (UNASSIGNED : Int) :: vs2] }

/-- A DAO with both buffers cleared. -/
def clearedBuf (d : DAOState) : DAOState :=
  { d with writeBuffer := [], flushBuffer := [] }

/-- A DAO holding a rejected-manual-id record followed by a sentinel-id
record in its write buffer. -/
def bufBadGood (d : DAOState) (vs1 vs2 : List Value) : DAOState :=
  { d with writeBuffer :=
      [Value.vInt 0 :: vs1, Value.vInt (UNASSIGNED : Int) :: vs2] }

/-- `bufBadGood` after the flush swap (empty flush buffer beforehand). -/
def swapBadGood (d : DAOState) (vs1 vs2 : List Value) : DAOState :=
  { d with writeBuffer := [],
           flushBuffer :=
             [Value.vInt 0 :: vs1, Value.vInt (UNASSIGNED : Int) :: vs2] }

/-- C3: the buffered pipeline.  `addToBuffer` appends a copy to the write
buffer; `clearBuffer` discards both buffers; flushing two buffered
sentinel-id records persists both, in buffer order, with consecutive ids,
and leaves both buffers empty; buffering, clearing, then flushing persists
nothing; a rejected record in the middle of a batch does not abort the
batch — the following record is still persisted, the violation is logged
and the prior rows are unaffected. -/
theorem claim_C3_buffered_pipeline (env : Env) (name : String)
    (rest : List Field) (vs1 vs2 : List Value) (rs : RegState) (d : DAOState)
    (rows : List Row) (fuel : Nat)
    (hf : envFields env name = ("id", FieldKind.integer) :: rest)
    (hs : allScalar rest = true)
    (hm1 : matchesKinds rest vs1 = true) (hm2 : matchesKinds rest vs2 = true)
    (hd : daoFind rs.daos name = some d) (hi : d.hasInsertStmt = true)
    (ht : tblFind rs.tables name = some rows)
    (hwb : d.writeBuffer = []) (hfb : d.flushBuffer = [])
    (hc : d.idCounter + 2 < U32MOD) :
    (∀ r : Record, daoAddToBuffer env name rs r =
      { rs with daos :=
          daoSet rs.daos name { d with writeBuffer := d.writeBuffer ++ [r] } }) ∧
    (daoClearBuffer env name rs =
      { rs with daos :=
          daoSet rs.daos name { d with writeBuffer := [], flushBuffer := [] } }) ∧
    (daoFlushInsert env (fuel + 1) name
      (daoAddToBuffer env name
        (daoAddToBuffer env name rs (Value.vInt (UNASSIGNED : Int) :: vs1))
        (Value.vInt (UNASSIGNED : Int) :: vs2)) =
      { daos := daoSet rs.daos name
          { d with idCounter := d.idCounter + 2,
                   writeBuffer := [], flushBuffer := [] },
        tables := tblSet rs.tables name
          (rows ++
            [SQLVal.sInt ((d.idCounter + 1 : Nat) : Int) :: vs1.map encodeScalar,
             SQLVal.sInt ((d.idCounter + 2 : Nat) : Int) :: vs2.map encodeScalar]),
        log := rs.log }) ∧
    (∀ e : Record, daoFlushInsert env (fuel + 1) name
      (daoClearBuffer env name (daoAddToBuffer env name rs e)) =
      { rs with daos :=
          daoSet rs.daos name { d with writeBuffer := [], flushBuffer := [] } }) ∧
    (daoFlushInsert env (fuel + 1) name
      (daoAddToBuffer env name
        (daoAddToBuffer env name rs (Value.vInt 0 :: vs1))
        (Value.vInt (UNASSIGNED : Int) :: vs2)) =
      { daos := daoSet rs.daos name
          { d with idCounter := d.idCounter + 1,
                   writeBuffer := [], flushBuffer := [] },
        tables := tblSet rs.tables name
          (rows ++
            [SQLVal.sInt ((d.idCounter + 1 : Nat) : Int) ::
              vs2.map encodeScalar]),
        log := rs.log ++ [policyViolationMsg] }) := by
  refine ⟨fun r => daoAddToBuffer_eq env name rs d r hd,
    daoClearBuffer_eq env name rs d hd, ?_, ?_, ?_⟩
  · rw [daoAddToBuffer_eq env name rs d _ hd]
    rw [daoAddToBuffer_eq env name _ _ _
      (daoFind_daoSet_self rs.daos name d _ hd)]
    simp only [daoSet_daoSet, hwb, List.nil_append, List.singleton_append]
    have hfold : ({ d with writeBuffer :=
        [Value.vInt (UNASSIGNED : Int) :: vs1,
         Value.vInt (UNASSIGNED : Int) :: vs2] } : DAOState) =
        bufTwo d vs1 vs2 := rfl
    rw [hfold]
    have hms : ∀ vs ∈ [vs1, vs2], matchesKinds rest vs = true := by
      intro vs hv
      simp only [List.mem_cons, List.mem_singleton] at hv
      rcases hv with rfl | rfl | h
      · exact hm1
      · exact hm2
      · cases h
    have happ := daoFlushInsert_scalar env name rest fuel [vs1, vs2]
      { daos := daoSet rs.daos name (bufTwo d vs1 vs2),
        tables := rs.tables, log := rs.log }
      (bufTwo d vs1 vs2) rows hf hs hms
      (daoFind_daoSet_self rs.daos name d _ hd) hi ht rfl hfb hc
    rw [happ]
    have h2 : ((d.idCounter : Int) + 1 + 1) = ((d.idCounter : Int) + 2) := by
      ring
    simp [bufTwo, daoSet_daoSet, numberedRows, h2]
  · intro e
    rw [daoAddToBuffer_eq env name rs d e hd]
    rw [daoClearBuffer_eq env name _ _
      (daoFind_daoSet_self rs.daos name d _ hd)]
    simp only [daoSet_daoSet]
    have hfold : ({ d with writeBuffer := ([] : List Record),
                           flushBuffer := ([] : List Record) } : DAOState) =
        clearedBuf d := rfl
    rw [hfold]
    have happ := daoFlushInsert_scalar env name rest fuel []
      { daos := daoSet rs.daos name (clearedBuf d),
        tables := rs.tables, log := rs.log }
      (clearedBuf d) rows hf hs (by simp)
      (daoFind_daoSet_self rs.daos name d _ hd) hi ht rfl rfl
      (by simp [clearedBuf]; omega)
    rw [happ]
    simp only [clearedBuf, daoSet_daoSet, numberedRows, List.length_nil,
      Nat.add_zero, List.append_nil, tblSet_self rs.tables name rows ht]
  · rw [daoAddToBuffer_eq env name rs d _ hd]
    rw [daoAddToBuffer_eq env name _ _ _
      (daoFind_daoSet_self rs.daos name d _ hd)]
    simp only [daoSet_daoSet, hwb, List.nil_append, List.singleton_append]
    have hfold : ({ d with writeBuffer :=
        [Value.vInt 0 :: vs1, Value.vInt (UNASSIGNED : Int) :: vs2] } :
          DAOState) = bufBadGood d vs1 vs2 := rfl
    rw [hfold]
    rw [daoFlushInsert,
      getDAO_found env name _ _ (daoFind_daoSet_self rs.daos name d _ hd)]
    simp only [bufBadGood, hfb, daoSet_daoSet]
    have hfold2 : ({ d with writeBuffer := ([] : List Record),
                            flushBuffer :=
                              [Value.vInt 0 :: vs1,
                               Value.vInt (UNASSIGNED : Int) :: vs2] } :
          DAOState) = swapBadGood d vs1 vs2 := rfl
    rw [hfold2]
    simp only [flushItems]
    rw [daoInsert_reject env name
      { daos := daoSet rs.daos name (swapBadGood d vs1 vs2),
        tables := rs.tables, log := rs.log }
      (swapBadGood d vs1 vs2) (Value.vInt 0 :: vs1) fuel
      (daoFind_daoSet_self rs.daos name d _ hd) hi
      (by simp [getId, UNASSIGNED]) (by simp [getId])]
    rw [daoInsert_scalar_auto env name rest vs2
      { daos := daoSet rs.daos name (swapBadGood d vs1 vs2),
        tables := rs.tables, log := rs.log ++ [policyViolationMsg] }
      (swapBadGood d vs1 vs2) rows fuel hf hs hm2
      (daoFind_daoSet_self rs.daos name d _ hd) hi ht
      (by simp [swapBadGood]; omega)]
    simp only [flushItems, daoSet_daoSet, swapBadGood]
    rw [daoFind_daoSet_self rs.daos name d _ hd]

/-- Witness for C3 on the `Item` Accessor: flushing two buffered records
persists both with ids 1 and 2. -/
theorem claim_C3_witness :
    envFields itemEnv "Item" =
      ("id", FieldKind.integer) ::
        [("name", FieldKind.text), ("price", FieldKind.float)] ∧
    daoFind itemRegState.daos "Item" = some itemDAO ∧
    itemDAO.writeBuffer = [] ∧
    itemDAO.idCounter + 2 < U32MOD ∧
    daoFlushInsert itemEnv 1 "Item"
      (daoAddToBuffer itemEnv "Item"
        (daoAddToBuffer itemEnv "Item" itemRegState
          (Value.vInt (UNASSIGNED : Int) :: [Value.vText "a", Value.vFloat 1]))
        (Value.vInt (UNASSIGNED : Int) :: [Value.vText "b", Value.vFloat 2])) =
      { daos := daoSet itemRegState.daos "Item"
          { itemDAO with idCounter := itemDAO.idCounter + 2,
                         writeBuffer := [], flushBuffer := [] },
        tables := tblSet itemRegState.tables "Item"
          ([] ++
            [SQLVal.sInt ((itemDAO.idCounter + 1 : Nat) : Int) ::
              [Value.vText "a", Value.vFloat 1].map encodeScalar,
             SQLVal.sInt ((itemDAO.idCounter + 2 : Nat) : Int) ::
              [Value.vText "b", Value.vFloat 2].map encodeScalar]),
        log := itemRegState.log } := by
  refine ⟨rfl, rfl, rfl, by decide, ?_⟩
  exact (claim_C3_buffered_pipeline itemEnv "Item"
    [("name", FieldKind.text), ("price", FieldKind.float)]
    [Value.vText "a", Value.vFloat 1] [Value.vText "b", Value.vFloat 2]
    itemRegState itemDAO [] 0 rfl rfl rfl rfl rfl rfl rfl rfl rfl
    (by decide)).2.2.1

/-! ## Schema generation (C6, C4 DDL part) -/

/-- The claim's kind-to-column-type table. -/
def specSQLType (k : FieldKind) : String :=
  match k with
  | FieldKind.integer => "INTEGER"
  | FieldKind.float => "FLOAT"
  | FieldKind.text => "TEXT"
  | FieldKind.blob => "BLOB"
  | _ => ""

/-- The claim's column definition for one field: scalar kinds map to their
column type (a field named `id` marked PRIMARY KEY), EmbeddedEntity and
ForeignKey fields become an INTEGER column named `<field>_id`,
RepeatedField fields add no column. -/
def specColumn (f : Field) : Option String :=
  match f.2 with
  | FieldKind.repeated _ => none
  | FieldKind.foreignKey _ => some (f.1 ++ "_id INTEGER")
  | FieldKind.embedded _ => some (f.1 ++ "_id INTEGER")
  | k =>
      some (f.1 ++ " " ++ specSQLType k ++
        (if f.1 = "id" then " PRIMARY KEY" else ""))

/-- The claim's FOREIGN KEY clause for a relation field, referencing the
related table's id. -/
def specFKClause (f : Field) : Option String :=
  match f.2 with
  | FieldKind.foreignKey c =>
      some (", FOREIGN KEY (" ++ f.1 ++ "_id) REFERENCES " ++ c ++ "(id)")
  | FieldKind.embedded c =>
      some (", FOREIGN KEY (" ++ f.1 ++ "_id) REFERENCES " ++ c ++ "(id)")
  | _ => none

/-- Concatenation of a list of strings. -/
def strConcat : List String → String
  | [] => ""
  | s :: rest => s ++ strConcat rest

/-- Comma-separated rendering of a column list. -/
def renderCols : List String → String
  | [] => ""
  | c :: cs => c ++ strConcat (cs.map (", " ++ ·))

/-- The column/FOREIGN-KEY accumulator of `generateCreateTableSQL` produces
exactly the claim-side column definitions and clauses. -/
theorem createColsAux_eq :
    ∀ (fields : List Field) (first : Bool) (sql fks : String),
      createColsAux fields first sql fks =
        (sql ++ (if first then renderCols (fields.filterMap specColumn)
                 else strConcat ((fields.filterMap specColumn).map (", " ++ ·))),
         fks ++ strConcat (fields.filterMap specFKClause)) := by
  intro fields
  induction fields with
  | nil =>
      intro first sql fks
      cases first <;> simp [createColsAux, renderCols, strConcat]
  | cons f fs ih =>
      intro first sql fks
      obtain ⟨fname, k⟩ := f
      cases k <;> cases first <;>
        simp [createColsAux, specColumn, specFKClause, specSQLType,
          getSQLType, renderCols, strConcat, ih, String.append_assoc]

/-- C6: the generated CREATE TABLE statement is the comma-separated
claim-side column list followed by the FOREIGN KEY clauses; an all-scalar
descriptor yields exactly one column per field (fields plus id when the
descriptor is `id :: rest`) and no FOREIGN KEY clause; and the claim's
kind-to-column mapping holds field by field, with `id` marked PRIMARY
KEY. -/
theorem claim_C6_create_table_columns :
    (∀ (name : String) (fields : List Field),
      generateCreateTableSQL name fields =
        "CREATE TABLE IF NOT EXISTS " ++ name ++ " (" ++
          renderCols (fields.filterMap specColumn) ++
          strConcat (fields.filterMap specFKClause) ++ ");") ∧
    (∀ fields : List Field, allScalar fields = true →
      (fields.filterMap specColumn).length = fields.length ∧
      fields.filterMap specFKClause = []) ∧
    (specColumn ("id", FieldKind.integer) = some "id INTEGER PRIMARY KEY") ∧
    (∀ (n c : String), n ≠ "id" →
      specColumn (n, FieldKind.integer) = some (n ++ " INTEGER") ∧
      specColumn (n, FieldKind.float) = some (n ++ " FLOAT") ∧
      specColumn (n, FieldKind.text) = some (n ++ " TEXT") ∧
      specColumn (n, FieldKind.blob) = some (n ++ " BLOB") ∧
      specColumn (n, FieldKind.embedded c) = some (n ++ "_id INTEGER") ∧
      specColumn (n, FieldKind.foreignKey c) = some (n ++ "_id INTEGER") ∧
      specColumn (n, FieldKind.repeated c) = none ∧
      specFKClause (n, FieldKind.foreignKey c) =
        some (", FOREIGN KEY (" ++ n ++ "_id) REFERENCES " ++ c ++ "(id)") ∧
      specFKClause (n, FieldKind.embedded c) =
        some (", FOREIGN KEY (" ++ n ++ "_id) REFERENCES " ++ c ++ "(id)")) := by
  refine ⟨?_, ?_, by decide, ?_⟩
  · intro name fields
    rw [generateCreateTableSQL, createColsAux_eq fields true "" ""]
    simp [String.append_assoc]
  · intro fields ha
    induction fields with
    | nil => simp
    | cons f fs ih =>
        obtain ⟨n, k⟩ := f
        simp only [allScalar, List.all_cons, Bool.and_eq_true] at ha
        have hrest := ih (by simpa [allScalar] using ha.2)
        cases k <;> simp_all [specColumn, specFKClause, isScalarKind]
  · intro n c hn
    have hm1 : (" " ++ "INTEGER" : String) = " INTEGER" := rfl
    have hm2 : (" " ++ "FLOAT" : String) = " FLOAT" := rfl
    have hm3 : (" " ++ "TEXT" : String) = " TEXT" := rfl
    have hm4 : (" " ++ "BLOB" : String) = " BLOB" := rfl
    simp [specColumn, specFKClause, specSQLType, hn, String.append_assoc,
      hm1, hm2, hm3, hm4]

/-- Witness for C6: the `Item` table text and a non-id column mapping. -/
theorem claim_C6_witness :
    allScalar
      [("id", FieldKind.integer), ("name", FieldKind.text),
       ("price", FieldKind.float)] = true ∧
    ([("id", FieldKind.integer), ("name", FieldKind.text),
      ("price", FieldKind.float)].filterMap specColumn).length =
      [("id", FieldKind.integer), ("name", FieldKind.text),
       ("price", FieldKind.float)].length ∧
    ("name" : String) ≠ "id" ∧
    specColumn ("name", FieldKind.text) = some ("name" ++ " TEXT") ∧
    generateCreateTableSQL "Item"
      [("id", FieldKind.integer), ("name", FieldKind.text),
       ("price", FieldKind.float)] =
      "CREATE TABLE IF NOT EXISTS Item (id INTEGER PRIMARY KEY, name TEXT, price FLOAT);" := by
  refine ⟨by decide, ?_, by decide, ?_, ?_⟩
  · exact (claim_C6_create_table_columns.2.1
      [("id", FieldKind.integer), ("name", FieldKind.text),
       ("price", FieldKind.float)] (by decide)).1
  · exact (claim_C6_create_table_columns.2.2.2 "name" "C" (by decide)).2.2.1
  · rw [claim_C6_create_table_columns.1 "Item"
      [("id", FieldKind.integer), ("name", FieldKind.text),
       ("price", FieldKind.float)]]
    rfl

/-! ## Failed initialization (C9) -/

/-- The DAO produced when the engine rejects the entity's schema: no
statement prepared, `isInitialized` false. -/
def failedDAO : DAOState :=
  { hasInsertStmt := false, hasSelectAllStmt := false,
    hasSelectByIdStmt := false, idCounter := 0,
    writeBuffer := [], flushBuffer := [], isInitialized := false }

theorem failedDAO_insertStmt : failedDAO.hasInsertStmt = false := rfl
theorem failedDAO_selectAllStmt : failedDAO.hasSelectAllStmt = false := rfl
theorem failedDAO_selectByIdStmt : failedDAO.hasSelectByIdStmt = false := rfl
theorem failedDAO_not_init : failedDAO.isInitialized = false := rfl
theorem failedDAO_wb : failedDAO.writeBuffer = [] := rfl
theorem failedDAO_fb : failedDAO.flushBuffer = [] := rfl

/-- Construction against a rejecting engine: everything fails wholesale and
no table is created. -/
theorem getDAO_fail (env : Env) (name : String) (rs : RegState)
    (hfail : env.engineFails name = true)
    (hnone : daoFind rs.daos name = none) :
    getDAO env name rs =
      (failedDAO, { rs with daos := rs.daos ++ [(name, failedDAO)] }) := by
  simp [getDAO, hnone, hfail, failedDAO]

/-- C9: when schema execution / statement preparation fails,
`isInitialized` is false and every subsequent operation degrades without
state change: `insert` returns `false`, `selectAll` the empty vector,
`selectById` empty; and FailedInit is terminal — after `insert`,
`addToBuffer`, `clearBuffer` and the buffered flush the flag is still
false.  (Exception-freedom is modelled by totality: every operation of the
embedding returns a value.)  The three statement handles stand or fall
together, as SQLite fails every preparation against a table whose CREATE
was rejected. -/
theorem claim_C9_failed_init_degrades (env : Env) (name : String)
    (rs : RegState) (fuel : Nat) (r : Record) (id : Nat)
    (hfail : env.engineFails name = true)
    (hnone : daoFind rs.daos name = none) :
    (getDAO env name rs).1.isInitialized = false ∧
    (getDAO env name rs).2.tables = rs.tables ∧
    daoInsert env (fuel + 1) name (getDAO env name rs).2 r =
      (false, r, (getDAO env name rs).2) ∧
    daoSelectAll env (fuel + 1) name (getDAO env name rs).2 =
      ([], (getDAO env name rs).2) ∧
    daoSelectById env (fuel + 1) name (getDAO env name rs).2 id =
      (none, (getDAO env name rs).2) ∧
    ((daoFind (daoInsert env (fuel + 1) name (getDAO env name rs).2 r).2.2.daos
      name).map (fun d => d.isInitialized)) = some false ∧
    ((daoFind (daoAddToBuffer env name (getDAO env name rs).2 r).daos
      name).map (fun d => d.isInitialized)) = some false ∧
    ((daoFind (daoClearBuffer env name (getDAO env name rs).2).daos
      name).map (fun d => d.isInitialized)) = some false ∧
    ((daoFind (daoFlushInsert env (fuel + 1) name (getDAO env name rs).2).daos
      name).map (fun d => d.isInitialized)) = some false := by
  rw [getDAO_fail env name rs hfail hnone]
  have hD : daoFind ({ rs with daos := rs.daos ++ [(name, failedDAO)] } :
      RegState).daos name = some failedDAO :=
    daoFind_append_none rs.daos name failedDAO hnone
  have hG := getDAO_found env name _ _ hD
  have hIns : daoInsert env (fuel + 1) name
      ({ rs with daos := rs.daos ++ [(name, failedDAO)] } : RegState) r =
      (false, r, { rs with daos := rs.daos ++ [(name, failedDAO)] }) := by
    simp only [daoInsert]
    rw [hG]
    simp [failedDAO_insertStmt]
  refine ⟨rfl, rfl, hIns, ?_, ?_, ?_, ?_, ?_, ?_⟩
  · simp only [daoSelectAll]
    rw [hG]
    simp [failedDAO_selectAllStmt]
  · simp only [daoSelectById]
    rw [hG]
    simp [failedDAO_selectByIdStmt]
  · rw [hIns, hD]
    rfl
  · rw [daoAddToBuffer_eq env name _ _ r hD]
    rw [daoFind_daoSet_self _ name failedDAO _ hD]
    rfl
  · rw [daoClearBuffer_eq env name _ _ hD]
    rw [daoFind_daoSet_self _ name failedDAO _ hD]
    rfl
  · simp only [daoFlushInsert]
    rw [hG]
    simp only [failedDAO_wb, failedDAO_fb, flushItems]
    rw [daoFind_daoSet_self _ name failedDAO _ hD]
    simp only [daoSet_daoSet]
    rw [daoFind_daoSet_self _ name failedDAO _ hD]
    rfl

/-- An environment whose engine rejects the `Bad` entity's schema. -/
def failEnv : Env :=
  { schemas := [("Bad", [("id", FieldKind.integer)])],
    engineFails := fun n => n == "Bad" }

/-- Witness for C9 on the rejecting engine. -/
theorem claim_C9_witness :
    failEnv.engineFails "Bad" = true ∧
    daoFind freshReg.daos "Bad" = none ∧
    (getDAO failEnv "Bad" freshReg).1.isInitialized = false ∧
    daoInsert failEnv 1 "Bad" (getDAO failEnv "Bad" freshReg).2
        [Value.vInt 5] =
      (false, [Value.vInt 5], (getDAO failEnv "Bad" freshReg).2) := by
  refine ⟨rfl, rfl, ?_, ?_⟩
  · exact (claim_C9_failed_init_degrades failEnv "Bad" freshReg 0
      [Value.vInt 5] 7 rfl rfl).1
  · exact (claim_C9_failed_init_degrades failEnv "Bad" freshReg 0
      [Value.vInt 5] 7 rfl rfl).2.2.1

/-! ## ForeignKey resolve (C5) -/

/-- A registry with a `Vertex` entity whose engine accepts every schema. -/
def fkEnv : Env :=
  { schemas :=
      [("Vertex", [("id", FieldKind.integer), ("x", FieldKind.float)])],
    engineFails := fun _ => false }

/-- The registry after constructing the `Vertex` Accessor: empty table. -/
def fkRegState : RegState := (getDAO fkEnv "Vertex" freshReg).2

/-- Counterexample to C5 as stated: a resolve of a set foreign key (id 5)
with no matching row queries, returns empty — and a second resolve on the
returned instance queries again, because the code caches only successful
lookups (`data_` stays `nullopt` after a miss), so a "not found" result is
never cached and resolve is not idempotent for it. -/
theorem claim_C5_counterexample :
    (fkResolve fkEnv 1 "Vertex" { fkId := 5, cache := none } fkRegState).1 =
      none ∧
    (fkResolve fkEnv 1 "Vertex" { fkId := 5, cache := none }
      fkRegState).2.2.2 = true ∧
    (fkResolve fkEnv 1 "Vertex"
      (fkResolve fkEnv 1 "Vertex" { fkId := 5, cache := none }
        fkRegState).2.1
      (fkResolve fkEnv 1 "Vertex" { fkId := 5, cache := none }
        fkRegState).2.2.1).2.2.2 = true := by
  exact ⟨rfl, rfl, rfl⟩

/-- C5 (amended): `resolve` with id==0 returns the cache (empty unless
something was cached earlier) without querying; with a cached value it
returns it without querying; with id≠0 and an empty cache it performs
`selectById` through the child's Accessor, stores the result in `data_`
and returns it.  A found result is cached, so a later resolve does not
re-query; a not-found result leaves the cache empty, so a later resolve
queries again — idempotence holds only for successful lookups (and for
id==0). -/
theorem claim_C5_resolve_caches_found_only (env : Env) (fuel : Nat)
    (child : String) (fk : FKState) (rs : RegState) :
    (fk.fkId = 0 → fkResolve env fuel child fk rs = (fk.cache, fk, rs, false)) ∧
    (∀ c, fk.cache = some c →
      fkResolve env fuel child fk rs = (some c, fk, rs, false)) ∧
    (fk.fkId ≠ 0 → fk.cache = none →
      fkResolve env fuel child fk rs =
        ((daoSelectById env fuel child rs fk.fkId).1,
         { fkId := fk.fkId, cache := (daoSelectById env fuel child rs fk.fkId).1 },
         (daoSelectById env fuel child rs fk.fkId).2, true)) ∧
    (fk.fkId ≠ 0 → fk.cache = none →
      ∀ c, (daoSelectById env fuel child rs fk.fkId).1 = some c →
        (fkResolve env fuel child (fkResolve env fuel child fk rs).2.1
          (fkResolve env fuel child fk rs).2.2.1).2.2.2 = false) ∧
    (fk.fkId ≠ 0 → fk.cache = none →
      (daoSelectById env fuel child rs fk.fkId).1 = none →
        (fkResolve env fuel child (fkResolve env fuel child fk rs).2.1
          (fkResolve env fuel child fk rs).2.2.1).2.2.2 = true) := by
  refine ⟨?_, ?_, ?_, ?_, ?_⟩
  · intro h0
    simp [fkResolve, h0]
  · intro c hc
    simp [fkResolve, hc]
  · intro h0 hc
    simp [fkResolve, h0, hc]
  · intro h0 hc c hsel
    simp [fkResolve, h0, hc, hsel]
  · intro h0 hc hsel
    simp [fkResolve, h0, hc, hsel]

/-- Witness for the amended C5: resolving id 5 against an empty `Vertex`
table queries and returns empty. -/
theorem claim_C5_witness :
    ({ fkId := 5, cache := none } : FKState).fkId ≠ 0 ∧
    ({ fkId := 5, cache := none } : FKState).cache = none ∧
    fkResolve fkEnv 1 "Vertex" { fkId := 5, cache := none } fkRegState =
      ((daoSelectById fkEnv 1 "Vertex" fkRegState 5).1,
       { fkId := 5, cache := (daoSelectById fkEnv 1 "Vertex" fkRegState 5).1 },
       (daoSelectById fkEnv 1 "Vertex" fkRegState 5).2, true) := by
  refine ⟨by decide, rfl, ?_⟩
  exact (claim_C5_resolve_caches_found_only fkEnv 1 "Vertex"
    { fkId := 5, cache := none } fkRegState).2.2.1 (by decide) rfl

/-! ## Repeated-field, eager/lazy select and insert-frame claims -/

/-- One unfolding step of `daoInsert` at positive fuel, matching the body of `DataAccessObject::insert(T&)`. -/
theorem daoInsert_succ (env : Env) (fuel : Nat) (name : String)
    (rs : RegState) (r : Record) :
    daoInsert env (fuel + 1) name rs r =
      (let p := getDAO env name rs
       let d := p.1
       if !d.hasInsertStmt then (false, r, p.2)
       else if getId r = UNASSIGNED then
         let c := (d.idCounter + 1) % U32MOD
         let rs2 :=
           { p.2 with daos := daoSet p.2.daos name { d with idCounter := c } }
         dbInsertExec env (daoInsert env fuel) name rs2 (setId r c)
       else if getId r ≤ d.idCounter then
         (false, r, { p.2 with log := p.2.log ++ [policyViolationMsg] })
       else
         let rs2 :=
           { p.2 with
             daos := daoSet p.2.daos name { d with idCounter := getId r } }
         dbInsertExec env (daoInsert env fuel) name rs2 r) := rfl

/-- One unfolding step of `dbInsertExec`: bind the members, step the statement, append the row. -/
theorem dbInsertExec_def (env : Env)
    (ci : String → RegState → Record → Bool × Record × RegState)
    (name : String) (rs : RegState) (r : Record) :
    dbInsertExec env ci name rs r =
      (let t := insertCells ci name (getId r) (envFields env name) r rs
       match tblFind t.2.2.tables name with
       | some rows =>
           (true, t.2.1,
             { t.2.2 with tables := tblSet t.2.2.tables name (rows ++ [t.1]) })
       | none => (false, t.2.1, t.2.2)) := rfl
/-- A parent with a `RepeatedFieldTransferObject<Child>` member and the
all-scalar child, on an engine that accepts every schema. -/
def pcEnv : Env :=
  { schemas :=
      [("Parent",
        [("id", FieldKind.integer), ("children", FieldKind.repeated "Child")]),
       ("Child", [("id", FieldKind.integer), ("value", FieldKind.integer)])],
    engineFails := fun _ => false }

/-- `Child{id = auto, value = v}`. -/
def mkChild (v : Int) : Record :=
  [Value.vInt (UNASSIGNED : Int), Value.vInt v]

/-- `Parent{id = auto, children = [c1, c2, c3]}` with sentinel-id children. -/
def mkParent (v1 v2 v3 : Int) : Record :=
  [Value.vInt (UNASSIGNED : Int),
   Value.vRepeated [mkChild v1, mkChild v2, mkChild v3]]

/-- A DAO fresh out of a successful construction: all statements prepared,
counter zero, empty buffers. -/
def readyDAO : DAOState :=
  { hasInsertStmt := true, hasSelectAllStmt := true,
    hasSelectByIdStmt := true, idCounter := 0,
    writeBuffer := [], flushBuffer := [], isInitialized := true }

/-- `readyDAO` with the id counter at `c`. -/
def readyDAOAt (c : Nat) : DAOState := { readyDAO with idCounter := c }

/-- One junction-table row `(parent_id, child_id)`. -/
def jrow (p c : Nat) : Row := [SQLVal.sInt (p : Int), SQLVal.sInt (c : Int)]

/-- One `Child` table row `(id, value)`. -/
def crow (k : Nat) (v : Int) : Row := [SQLVal.sInt (k : Int), SQLVal.sInt v]

/-- The registry mid-way through inserting the parent: parent counter
already at 1, `cnt` children inserted so far, the junction and child rows
accumulated, the parent row not yet stepped. -/
def rsStep (cnt : Nat) (jrows crows : List Row) : RegState :=
  { daos := [("Parent", readyDAOAt 1), ("Child", readyDAOAt cnt)],
    tables := [("Parent_Child", jrows), ("Parent", []), ("Child", crows)],
    log := [] }

/-- The registry with both `Parent` and `Child` Accessors constructed and
all three tables (junction included) empty. -/
def rsPC : RegState :=
  { daos := [("Parent", readyDAO), ("Child", readyDAO)],
    tables := [("Parent_Child", []), ("Parent", []), ("Child", [])],
    log := [] }

/-- The registry after inserting `Parent{children = [v1, v2, v3]}`: three
child rows, three junction rows, the parent row, both counters advanced. -/
def c4Done (v1 v2 v3 : Int) : RegState :=
  { daos := [("Parent", readyDAOAt 1), ("Child", readyDAOAt 3)],
    tables :=
      [("Parent_Child", [jrow 1 1, jrow 1 2, jrow 1 3]),
       ("Parent", [[SQLVal.sInt ((1 : Nat) : Int)]]),
       ("Child", [crow 1 v1, crow 2 v2, crow 3 v3])],
    log := [] }

/-- The repeated-field loop on three sentinel-id children: each child is
inserted with consecutive ids 1, 2, 3 and one junction row is appended per
child, in member order. -/
theorem c4_kids (v1 v2 v3 : Int) :
    insertKids (daoInsert pcEnv 2) "Parent_Child" "Child" 1
      [mkChild v1, mkChild v2, mkChild v3] (rsStep 0 [] []) =
      ([[Value.vInt ((1 : Nat) : Int), Value.vInt v1],
        [Value.vInt ((2 : Nat) : Int), Value.vInt v2],
        [Value.vInt ((3 : Nat) : Int), Value.vInt v3]],
       rsStep 3 [jrow 1 1, jrow 1 2, jrow 1 3]
         [crow 1 v1, crow 2 v2, crow 3 v3]) := by
  have hc1 : daoInsert pcEnv 2 "Child" (rsStep 0 [] []) (mkChild v1) =
      (true, [Value.vInt ((1 : Nat) : Int), Value.vInt v1],
       rsStep 1 [] [crow 1 v1]) :=
    (daoInsert_scalar_auto pcEnv "Child" [("value", FieldKind.integer)]
      [Value.vInt v1] (rsStep 0 [] []) readyDAO [] 1 rfl rfl rfl rfl rfl rfl
      (by decide)).trans (by rfl)
  have hj1 : junctionAppend (rsStep 1 [] [crow 1 v1]) "Parent_Child" 1 1 =
      rsStep 1 [jrow 1 1] [crow 1 v1] := rfl
  have hc2 : daoInsert pcEnv 2 "Child" (rsStep 1 [jrow 1 1] [crow 1 v1])
      (mkChild v2) =
      (true, [Value.vInt ((2 : Nat) : Int), Value.vInt v2],
       rsStep 2 [jrow 1 1] [crow 1 v1, crow 2 v2]) :=
    (daoInsert_scalar_auto pcEnv "Child" [("value", FieldKind.integer)]
      [Value.vInt v2] (rsStep 1 [jrow 1 1] [crow 1 v1]) (readyDAOAt 1)
      [crow 1 v1] 1 rfl rfl rfl rfl rfl rfl (by decide)).trans (by rfl)
  have hj2 : junctionAppend (rsStep 2 [jrow 1 1] [crow 1 v1, crow 2 v2])
      "Parent_Child" 1 2 =
      rsStep 2 [jrow 1 1, jrow 1 2] [crow 1 v1, crow 2 v2] := rfl
  have hc3 : daoInsert pcEnv 2 "Child"
      (rsStep 2 [jrow 1 1, jrow 1 2] [crow 1 v1, crow 2 v2]) (mkChild v3) =
      (true, [Value.vInt ((3 : Nat) : Int), Value.vInt v3],
       rsStep 3 [jrow 1 1, jrow 1 2] [crow 1 v1, crow 2 v2, crow 3 v3]) :=
    (daoInsert_scalar_auto pcEnv "Child" [("value", FieldKind.integer)]
      [Value.vInt v3]
      (rsStep 2 [jrow 1 1, jrow 1 2] [crow 1 v1, crow 2 v2]) (readyDAOAt 2)
      [crow 1 v1, crow 2 v2] 1 rfl rfl rfl rfl rfl rfl
      (by decide)).trans (by rfl)
  have hj3 : junctionAppend
      (rsStep 3 [jrow 1 1, jrow 1 2] [crow 1 v1, crow 2 v2, crow 3 v3])
      "Parent_Child" 1 3 =
      rsStep 3 [jrow 1 1, jrow 1 2, jrow 1 3]
        [crow 1 v1, crow 2 v2, crow 3 v3] := rfl
  simp only [insertKids, hc1, getId_cons, hj1, hc2, hj2, hc3, hj3]
/-- Inserting the three-children parent: succeeds, the parent id becomes 1,
every child is inserted, one junction row per child is written, and the
parent row is stepped. -/
theorem c4_insert (v1 v2 v3 : Int) :
    daoInsert pcEnv 3 "Parent" rsPC (mkParent v1 v2 v3) =
      (true,
       [Value.vInt ((1 : Nat) : Int), Value.vRepeated
         [[Value.vInt ((1 : Nat) : Int), Value.vInt v1],
          [Value.vInt ((2 : Nat) : Int), Value.vInt v2],
          [Value.vInt ((3 : Nat) : Int), Value.vInt v3]]],
       c4Done v1 v2 v3) := by
  rw [daoInsert_succ pcEnv 2 "Parent" rsPC (mkParent v1 v2 v3)]
  have hget : getDAO pcEnv "Parent" rsPC = (readyDAO, rsPC) := rfl
  have hstmt : readyDAO.hasInsertStmt = true := rfl
  have hid : getId (mkParent v1 v2 v3) = UNASSIGNED := rfl
  have hmod : (readyDAO.idCounter + 1) % U32MOD = 1 := rfl
  have hset : setId (mkParent v1 v2 v3) 1 =
      Value.vInt ((1 : Nat) : Int) ::
        [Value.vRepeated [mkChild v1, mkChild v2, mkChild v3]] := rfl
  simp only [hget, hstmt, hid, hmod, hset, Bool.not_true, Bool.false_eq_true,
    if_false, if_true, eq_self_iff_true, ite_true]
  have hS1 : ({
      daos := daoSet rsPC.daos "Parent" {
        hasInsertStmt := true,
        hasSelectAllStmt := readyDAO.hasSelectAllStmt,
        hasSelectByIdStmt := readyDAO.hasSelectByIdStmt,
        idCounter := 1,
        writeBuffer := readyDAO.writeBuffer,
        flushBuffer := readyDAO.flushBuffer,
        isInitialized := readyDAO.isInitialized },
      tables := rsPC.tables,
      log := rsPC.log } : RegState) = rsStep 0 [] [] := rfl
  rw [hS1]
  have hflds : envFields pcEnv "Parent" =
      [("id", FieldKind.integer),
       ("children", FieldKind.repeated "Child")] := rfl
  have hjn : junctionName "Parent" "Child" = "Parent_Child" := rfl
  have hgid : getId (Value.vInt ((1 : Nat) : Int) ::
      [Value.vRepeated [mkChild v1, mkChild v2, mkChild v3]]) = 1 := rfl
  have hcells : insertCells (daoInsert pcEnv 2) "Parent"
      (getId (Value.vInt ((1 : Nat) : Int) ::
        [Value.vRepeated [mkChild v1, mkChild v2, mkChild v3]]))
      (envFields pcEnv "Parent")
      (Value.vInt ((1 : Nat) : Int) ::
        [Value.vRepeated [mkChild v1, mkChild v2, mkChild v3]])
      (rsStep 0 [] []) =
      ([SQLVal.sInt ((1 : Nat) : Int)],
       [Value.vInt ((1 : Nat) : Int),
        Value.vRepeated
          [[Value.vInt ((1 : Nat) : Int), Value.vInt v1],
           [Value.vInt ((2 : Nat) : Int), Value.vInt v2],
           [Value.vInt ((3 : Nat) : Int), Value.vInt v3]]],
       rsStep 3 [jrow 1 1, jrow 1 2, jrow 1 3]
         [crow 1 v1, crow 2 v2, crow 3 v3]) := by
    simp only [hgid, hflds, insertCells, hjn, c4_kids]
  rw [dbInsertExec_def, hcells]
  rfl

/-- A `RepeatedFieldTransferObject` member. -/
def isRepeatedField (f : Field) : Bool :=
  match f.2 with
  | FieldKind.repeated _ => true
  | _ => false

/-- The column accumulator ignores repeated fields: dropping them from the
descriptor leaves the generated column text unchanged. -/
theorem createColsAux_filter (fields : List Field) (first : Bool)
    (sql fks : String) :
    createColsAux (fields.filter fun f => !(isRepeatedField f)) first sql fks =
      createColsAux fields first sql fks := by
  induction fields generalizing first sql fks with
  | nil => rfl
  | cons f fs ih =>
      cases f with
      | mk fname k =>
          cases k <;> exact ih _ _ _

/-- One unfolding step of `daoSelectById` at positive fuel. -/
theorem daoSelectById_succ (env : Env) (fuel : Nat) (name : String)
    (rs : RegState) (id : Nat) :
    daoSelectById env (fuel + 1) name rs id =
      (let p := getDAO env name rs
       if !p.1.hasSelectByIdStmt then (none, p.2)
       else
         let rows := (tblFind p.2.tables name).getD []
         let hits := rows.filter fun row => rowId row = (id : Int)
         let t := selectRows (daoSelectById env fuel) env fuel name
           (envFields env name) hits p.2
         match t.1 with
         | [] => (none, t.2)
         | r :: _ => (some r, t.2)) := rfl

/-- Selecting child 1 from the finished registry. -/
theorem c4_child_sel1 (v1 v2 v3 : Int) :
    daoSelectById pcEnv 2 "Child" (c4Done v1 v2 v3) 1 =
      (some [Value.vInt ((1 : Nat) : Int), Value.vInt v1],
        c4Done v1 v2 v3) := rfl

/-- Selecting child 2 from the finished registry. -/
theorem c4_child_sel2 (v1 v2 v3 : Int) :
    daoSelectById pcEnv 2 "Child" (c4Done v1 v2 v3) 2 =
      (some [Value.vInt ((2 : Nat) : Int), Value.vInt v2],
        c4Done v1 v2 v3) := rfl

/-- Selecting child 3 from the finished registry. -/
theorem c4_child_sel3 (v1 v2 v3 : Int) :
    daoSelectById pcEnv 2 "Child" (c4Done v1 v2 v3) 3 =
      (some [Value.vInt ((3 : Nat) : Int), Value.vInt v3],
        c4Done v1 v2 v3) := rfl

/-- Reloading the parent by id: the junction table is queried for the
parent's id, the child ids are collected and each child is loaded by id, in
original order with matching field values. -/
theorem c4_select (v1 v2 v3 : Int) :
    daoSelectById pcEnv 3 "Parent" (c4Done v1 v2 v3) 1 =
      (some [Value.vInt ((1 : Nat) : Int),
        Value.vRepeated
          [[Value.vInt ((1 : Nat) : Int), Value.vInt v1],
           [Value.vInt ((2 : Nat) : Int), Value.vInt v2],
           [Value.vInt ((3 : Nat) : Int), Value.vInt v3]]],
       c4Done v1 v2 v3) := by
  rw [daoSelectById_succ pcEnv 2 "Parent" (c4Done v1 v2 v3) 1]
  have hget2 : getDAO pcEnv "Parent" (c4Done v1 v2 v3) =
      (readyDAOAt 1, c4Done v1 v2 v3) := rfl
  have hstmt2 : (readyDAOAt 1).hasSelectByIdStmt = true := rfl
  have hrows : (tblFind (c4Done v1 v2 v3).tables "Parent").getD [] =
      [[SQLVal.sInt ((1 : Nat) : Int)]] := rfl
  have hhits : ([[SQLVal.sInt ((1 : Nat) : Int)]] : List Row).filter
      (fun row => rowId row = ((1 : Nat) : Int)) =
      [[SQLVal.sInt ((1 : Nat) : Int)]] := rfl
  have hflds2 : envFields pcEnv "Parent" =
      [("id", FieldKind.integer),
       ("children", FieldKind.repeated "Child")] := rfl
  simp only [hget2, hstmt2, Bool.not_true, Bool.false_eq_true, if_false,
    hrows, hhits, hflds2]
  have hself : u32 (rowId [SQLVal.sInt ((1 : Nat) : Int)]) = 1 := rfl
  have hjn2 : junctionName "Parent" "Child" = "Parent_Child" := rfl
  have hjrows : (tblFind (c4Done v1 v2 v3).tables "Parent_Child").getD [] =
      [jrow 1 1, jrow 1 2, jrow 1 3] := rfl
  have hids : ([jrow 1 1, jrow 1 2, jrow 1 3].filter
      (fun row => rowId row = ((1 : Nat) : Int))).map junctionChildId =
      [1, 2, 3] := rfl
  have hdec : decodeCells (daoSelectById pcEnv 2) pcEnv 2 "Parent" 1
      [("id", FieldKind.integer), ("children", FieldKind.repeated "Child")]
      [SQLVal.sInt ((1 : Nat) : Int)] (c4Done v1 v2 v3) =
      ([Value.vInt ((1 : Nat) : Int),
        Value.vRepeated
          [[Value.vInt ((1 : Nat) : Int), Value.vInt v1],
           [Value.vInt ((2 : Nat) : Int), Value.vInt v2],
           [Value.vInt ((3 : Nat) : Int), Value.vInt v3]]],
       c4Done v1 v2 v3) := by
    have hcid1 : junctionChildId (jrow 1 1) = 1 := rfl
    have hcid2 : junctionChildId (jrow 1 2) = 2 := rfl
    have hcid3 : junctionChildId (jrow 1 3) = 3 := rfl
    simp only [decodeCells, hjn2, hjrows, hids, loadKids, hcid1, hcid2,
      hcid3, c4_child_sel1, c4_child_sel2, c4_child_sel3]
  simp only [selectRows, hself, hdec]

theorem c4_ddl_scenario :
    tblFind (getDAO pcEnv "Parent" freshReg).2.tables
        (junctionName "Parent" "Child") = some [] ∧
    daoFind (getDAO pcEnv "Parent" freshReg).2.daos "Child" = none ∧
    (getDAO pcEnv "Child" (getDAO pcEnv "Parent" freshReg).2).2 = rsPC := by
  exact ⟨rfl, rfl, rfl⟩


/-- An entity with a lazy `ForeignKey<Vertex>` member and an eager embedded
`Vertex` member. -/
def bodyEnv : Env :=
  { schemas :=
      [("Body",
        [("id", FieldKind.integer), ("ref", FieldKind.foreignKey "Vertex"),
         ("pos", FieldKind.embedded "Vertex")]),
       ("Vertex", [("id", FieldKind.integer), ("x", FieldKind.float)])],
    engineFails := fun _ => false }

/-- Both Accessors ready; `Body` has two rows (FK ids and embedded ids 7
and 9), `Vertex` holds only vertex 7 — so row 2's embedded lookup misses. -/
def c7State (q : ℚ) : RegState :=
  { daos := [("Body", readyDAO), ("Vertex", readyDAO)],
    tables :=
      [("Body",
        [[SQLVal.sInt 1, SQLVal.sInt 7, SQLVal.sInt 7],
         [SQLVal.sInt 2, SQLVal.sInt 9, SQLVal.sInt 9]]),
       ("Vertex", [[SQLVal.sInt 7, SQLVal.sFloat q]])],
    log := [] }

/-- C7: on every select, a ForeignKey column only copies its id into the
result — the head of the decoded record is `vForeignKey (u32 i) none`, for
every child-select continuation, so the referenced record is never
auto-loaded — while an embedded column is eagerly resolved: the nested id
is read and the record returned by the child Accessor's `selectById` is
placed in the result, falling back to a default record with just the id
set when the lookup misses; and on a two-row `Body` registry (embedded hit
and embedded miss) `selectById` and `selectAll` return exactly these
records, for every stored float `q`. -/
theorem claim_C7_eager_embedded_lazy_fk :
    (∀ (cs : String → RegState → Nat → Option Record × RegState) (env : Env)
      (fuel : Nat) (parent : String) (selfId : Nat) (fname child : String)
      (fs : List Field) (i : Int) (cells : Row) (rs : RegState),
      (decodeCells cs env fuel parent selfId
        ((fname, FieldKind.foreignKey child) :: fs)
        (SQLVal.sInt i :: cells) rs).1.head? =
        some (Value.vForeignKey (u32 i) none)) ∧
    (∀ (cs : String → RegState → Nat → Option Record × RegState) (env : Env)
      (fuel : Nat) (parent : String) (selfId : Nat) (fname child : String)
      (fs : List Field) (i : Int) (cells : Row) (rs : RegState)
      (crec : Record),
      (cs child rs (u32 i)).1 = some crec →
      (decodeCells cs env fuel parent selfId
        ((fname, FieldKind.embedded child) :: fs)
        (SQLVal.sInt i :: cells) rs).1.head? =
        some (Value.vEmbedded crec)) ∧
    (∀ (cs : String → RegState → Nat → Option Record × RegState) (env : Env)
      (fuel : Nat) (parent : String) (selfId : Nat) (fname child : String)
      (fs : List Field) (i : Int) (cells : Row) (rs : RegState),
      (cs child rs (u32 i)).1 = none →
      (decodeCells cs env fuel parent selfId
        ((fname, FieldKind.embedded child) :: fs)
        (SQLVal.sInt i :: cells) rs).1.head? =
        some (Value.vEmbedded
          (setId (defaultRec env fuel (envFields env child)) (u32 i)))) ∧
    (∀ q : ℚ,
      (daoSelectById bodyEnv 2 "Body" (c7State q) 1).1 =
        some [Value.vInt 1, Value.vForeignKey 7 none,
          Value.vEmbedded [Value.vInt 7, Value.vFloat q]] ∧
      (daoSelectById bodyEnv 2 "Body" (c7State q) 2).1 =
        some [Value.vInt 2, Value.vForeignKey 9 none,
          Value.vEmbedded
            (setId (defaultRec bodyEnv 1 (envFields bodyEnv "Vertex")) 9)] ∧
      (daoSelectAll bodyEnv 2 "Body" (c7State q)).1 =
        [[Value.vInt 1, Value.vForeignKey 7 none,
          Value.vEmbedded [Value.vInt 7, Value.vFloat q]],
         [Value.vInt 2, Value.vForeignKey 9 none,
          Value.vEmbedded
            (setId (defaultRec bodyEnv 1 (envFields bodyEnv "Vertex")) 9)]]) := by
  refine ⟨fun cs env fuel parent selfId fname child fs i cells rs => rfl,
    ?_, ?_, fun q => ⟨rfl, rfl, rfl⟩⟩
  · intro cs env fuel parent selfId fname child fs i cells rs crec h
    have hstep : (decodeCells cs env fuel parent selfId
        ((fname, FieldKind.embedded child) :: fs)
        (SQLVal.sInt i :: cells) rs).1.head? =
        some (match (cs child rs (u32 i)).1 with
          | some c => Value.vEmbedded c
          | none => Value.vEmbedded
              (setId (defaultRec env fuel (envFields env child)) (u32 i))) :=
      rfl
    rw [hstep, h]
  · intro cs env fuel parent selfId fname child fs i cells rs h
    have hstep : (decodeCells cs env fuel parent selfId
        ((fname, FieldKind.embedded child) :: fs)
        (SQLVal.sInt i :: cells) rs).1.head? =
        some (match (cs child rs (u32 i)).1 with
          | some c => Value.vEmbedded c
          | none => Value.vEmbedded
              (setId (defaultRec env fuel (envFields env child)) (u32 i))) :=
      rfl
    rw [hstep, h]

/-- Witness for C7: the embedded-hit and embedded-miss cases of
`decodeCells` at the `Body`/`Vertex` registry, hypotheses evaluated. -/
theorem claim_C7_witness :
    (daoSelectById bodyEnv 1 "Vertex" (c7State 5) (u32 7)).1 =
      some [Value.vInt 7, Value.vFloat 5] ∧
    (decodeCells (daoSelectById bodyEnv 1) bodyEnv 1 "Body" 1
      [("pos", FieldKind.embedded "Vertex")] [SQLVal.sInt 7]
      (c7State 5)).1.head? =
      some (Value.vEmbedded [Value.vInt 7, Value.vFloat 5]) ∧
    (daoSelectById bodyEnv 1 "Vertex" (c7State 5) (u32 9)).1 = none ∧
    (decodeCells (daoSelectById bodyEnv 1) bodyEnv 1 "Body" 1
      [("pos", FieldKind.embedded "Vertex")] [SQLVal.sInt 9]
      (c7State 5)).1.head? =
      some (Value.vEmbedded
        (setId (defaultRec bodyEnv 1 (envFields bodyEnv "Vertex")) (u32 9))) := by
  refine ⟨rfl, ?_, rfl, ?_⟩
  · exact claim_C7_eager_embedded_lazy_fk.2.1 (daoSelectById bodyEnv 1)
      bodyEnv 1 "Body" 1 "pos" "Vertex" [] 7 [] (c7State 5)
      [Value.vInt 7, Value.vFloat 5] rfl
  · exact claim_C7_eager_embedded_lazy_fk.2.2.1 (daoSelectById bodyEnv 1)
      bodyEnv 1 "Body" 1 "pos" "Vertex" [] 9 [] (c7State 5) rfl

/-- C4: schema derivation adds no column for a repeated field (filtering
repeated fields out of the descriptor leaves the CREATE TABLE text
unchanged) and the junction DDL `CREATE TABLE IF NOT EXISTS
<parent>_<child>(...)` is among the statements executed during generation;
deriving `Parent` creates the junction table immediately — before any
`Child` Accessor exists — and deriving `Child` then completes `rsPC`;
inserting a parent with children `[v1, v2, v3]` succeeds, inserts each
child and one junction row per child, and reloading the parent by id
yields the children in their original order with matching field values. -/
theorem claim_C4_repeated_field :
    (∀ (name : String) (fields : List Field),
      generateCreateTableSQL name fields =
        generateCreateTableSQL name
          (fields.filter fun f => !(isRepeatedField f))) ∧
    (∀ (name fname child : String) (fields : List Field),
      (fname, FieldKind.repeated child) ∈ fields →
      junctionDDL name child ∈ junctionDDLs name fields) ∧
    (tblFind (getDAO pcEnv "Parent" freshReg).2.tables
        (junctionName "Parent" "Child") = some [] ∧
      daoFind (getDAO pcEnv "Parent" freshReg).2.daos "Child" = none ∧
      (getDAO pcEnv "Child" (getDAO pcEnv "Parent" freshReg).2).2 = rsPC) ∧
    (∀ v1 v2 v3 : Int,
      (daoInsert pcEnv 3 "Parent" rsPC (mkParent v1 v2 v3)).1 = true ∧
      tblFind (daoInsert pcEnv 3 "Parent" rsPC (mkParent v1 v2 v3)).2.2.tables
          "Child" = some [crow 1 v1, crow 2 v2, crow 3 v3] ∧
      tblFind (daoInsert pcEnv 3 "Parent" rsPC (mkParent v1 v2 v3)).2.2.tables
          "Parent_Child" = some [jrow 1 1, jrow 1 2, jrow 1 3] ∧
      (daoSelectById pcEnv 3 "Parent"
        (daoInsert pcEnv 3 "Parent" rsPC (mkParent v1 v2 v3)).2.2 1).1 =
        some [Value.vInt ((1 : Nat) : Int),
          Value.vRepeated
            [[Value.vInt ((1 : Nat) : Int), Value.vInt v1],
             [Value.vInt ((2 : Nat) : Int), Value.vInt v2],
             [Value.vInt ((3 : Nat) : Int), Value.vInt v3]]]) := by
  refine ⟨?_, ?_, ⟨rfl, rfl, rfl⟩, ?_⟩
  · intro name fields
    simp only [generateCreateTableSQL, createColsAux_filter]
  · intro name fname child fields hmem
    exact List.mem_map_of_mem _
      (List.mem_filterMap.mpr ⟨(fname, FieldKind.repeated child), hmem, rfl⟩)
  · intro v1 v2 v3
    rw [c4_insert]
    refine ⟨rfl, rfl, rfl, ?_⟩
    show (daoSelectById pcEnv 3 "Parent" (c4Done v1 v2 v3) 1).1 = _
    rw [c4_select]

/-- Witness for C4 at the `Parent`/`Child` schema with children
`[10, 20, 30]`. -/
theorem claim_C4_witness :
    generateCreateTableSQL "Parent" (envFields pcEnv "Parent") =
      generateCreateTableSQL "Parent"
        ((envFields pcEnv "Parent").filter fun f => !(isRepeatedField f)) ∧
    ("children", FieldKind.repeated "Child") ∈ envFields pcEnv "Parent" ∧
    junctionDDL "Parent" "Child" ∈
      junctionDDLs "Parent" (envFields pcEnv "Parent") ∧
    (daoInsert pcEnv 3 "Parent" rsPC (mkParent 10 20 30)).1 = true ∧
    tblFind (daoInsert pcEnv 3 "Parent" rsPC (mkParent 10 20 30)).2.2.tables
        "Child" = some [crow 1 10, crow 2 20, crow 3 30] ∧
    (daoSelectById pcEnv 3 "Parent"
      (daoInsert pcEnv 3 "Parent" rsPC (mkParent 10 20 30)).2.2 1).1 =
      some [Value.vInt ((1 : Nat) : Int),
        Value.vRepeated
          [[Value.vInt ((1 : Nat) : Int), Value.vInt 10],
           [Value.vInt ((2 : Nat) : Int), Value.vInt 20],
           [Value.vInt ((3 : Nat) : Int), Value.vInt 30]]] := by
  refine ⟨claim_C4_repeated_field.1 "Parent" (envFields pcEnv "Parent"),
    List.Mem.tail _ (List.Mem.head _),
    claim_C4_repeated_field.2.1 "Parent" "children" "Child"
      (envFields pcEnv "Parent") (List.Mem.tail _ (List.Mem.head _)),
    (claim_C4_repeated_field.2.2.2 10 20 30).1,
    (claim_C4_repeated_field.2.2.2 10 20 30).2.1,
    (claim_C4_repeated_field.2.2.2 10 20 30).2.2.2⟩


/-- `C{id = auto, y = y}`. -/
def mkC (y : Int) : Record :=
  [Value.vInt (UNASSIGNED : Int), Value.vInt y]

/-- `E{id = auto, sub = C{id = auto, y = y}}`: a parent with a sentinel-id
embedded child. -/
def mkE (y : Int) : Record :=
  [Value.vInt (UNASSIGNED : Int), Value.vEmbedded (mkC y)]

/-- A parent `E` with an embedded all-scalar child `C`. -/
def ebEnv : Env :=
  { schemas :=
      [("E", [("id", FieldKind.integer), ("sub", FieldKind.embedded "C")]),
       ("C", [("id", FieldKind.integer), ("y", FieldKind.integer)])],
    engineFails := fun _ => false }

/-- Both `E` and `C` Accessors ready on empty tables. -/
def rsEB : RegState :=
  { daos := [("E", readyDAO), ("C", readyDAO)],
    tables := [("E", []), ("C", [])], log := [] }

/-- The registry after `E`'s id assignment, before the member loop. -/
def ebMid : RegState :=
  { daos := [("E", readyDAOAt 1), ("C", readyDAO)],
    tables := [("E", []), ("C", [])], log := [] }

/-- The registry after the embedded child's insert: `C`'s counter at 1 and
its row written, `E`'s row not yet stepped. -/
def ebMid2 (y : Int) : RegState :=
  { daos := [("E", readyDAOAt 1), ("C", readyDAOAt 1)],
    tables :=
      [("E", []),
       ("C", [[SQLVal.sInt ((1 : Nat) : Int), SQLVal.sInt y]])],
    log := [] }

/-- The registry after the whole insert of `E{sub = C{y}}`: the `E` row
binds the child's freshly assigned id 1. -/
def ebDone (y : Int) : RegState :=
  { daos := [("E", readyDAOAt 1), ("C", readyDAOAt 1)],
    tables :=
      [("E", [[SQLVal.sInt ((1 : Nat) : Int), SQLVal.sInt ((1 : Nat) : Int)]]),
       ("C", [[SQLVal.sInt ((1 : Nat) : Int), SQLVal.sInt y]])],
    log := [] }

/-- Inserting `E{id = auto, sub = C{id = auto, y}}`: the embedded child is
inserted first (id 1 assigned in place), the parent binds that id, and the
returned record holds both new ids with `y` untouched. -/
theorem eb_insert (y : Int) :
    daoInsert ebEnv 2 "E" rsEB (mkE y) =
      (true,
       [Value.vInt ((1 : Nat) : Int),
        Value.vEmbedded [Value.vInt ((1 : Nat) : Int), Value.vInt y]],
       ebDone y) := by
  rw [daoInsert_succ ebEnv 1 "E" rsEB (mkE y)]
  have hget : getDAO ebEnv "E" rsEB = (readyDAO, rsEB) := rfl
  have hstmt : readyDAO.hasInsertStmt = true := rfl
  have hid : getId (mkE y) = UNASSIGNED := rfl
  have hmod : (readyDAO.idCounter + 1) % U32MOD = 1 := rfl
  have hset : setId (mkE y) 1 =
      Value.vInt ((1 : Nat) : Int) :: [Value.vEmbedded (mkC y)] := rfl
  simp only [hget, hstmt, hid, hmod, hset, Bool.not_true, Bool.false_eq_true,
    if_false, if_true, eq_self_iff_true, ite_true]
  have hS1 : ({
      daos := daoSet rsEB.daos "E" {
        hasInsertStmt := true,
        hasSelectAllStmt := readyDAO.hasSelectAllStmt,
        hasSelectByIdStmt := readyDAO.hasSelectByIdStmt,
        idCounter := 1,
        writeBuffer := readyDAO.writeBuffer,
        flushBuffer := readyDAO.flushBuffer,
        isInitialized := readyDAO.isInitialized },
      tables := rsEB.tables,
      log := rsEB.log } : RegState) = ebMid := rfl
  rw [hS1]
  have hflds : envFields ebEnv "E" =
      [("id", FieldKind.integer), ("sub", FieldKind.embedded "C")] := rfl
  have hgid : getId (Value.vInt ((1 : Nat) : Int) ::
      [Value.vEmbedded (mkC y)]) = 1 := rfl
  have hchild : daoInsert ebEnv 1 "C" ebMid (mkC y) =
      (true, [Value.vInt ((1 : Nat) : Int), Value.vInt y], ebMid2 y) :=
    (daoInsert_scalar_auto ebEnv "C" [("y", FieldKind.integer)]
      [Value.vInt y] ebMid readyDAO [] 0 rfl rfl rfl rfl rfl rfl
      (by decide)).trans (by rfl)
  have hgid2 : getId [Value.vInt ((1 : Nat) : Int), Value.vInt y] = 1 := rfl
  have hcells : insertCells (daoInsert ebEnv 1) "E"
      (getId (Value.vInt ((1 : Nat) : Int) :: [Value.vEmbedded (mkC y)]))
      (envFields ebEnv "E")
      (Value.vInt ((1 : Nat) : Int) :: [Value.vEmbedded (mkC y)]) ebMid =
      ([SQLVal.sInt ((1 : Nat) : Int), SQLVal.sInt ((1 : Nat) : Int)],
       [Value.vInt ((1 : Nat) : Int),
        Value.vEmbedded [Value.vInt ((1 : Nat) : Int), Value.vInt y]],
       ebMid2 y) := by
    simp only [hgid, hflds, insertCells, hchild, hgid2]
  rw [dbInsertExec_def, hcells]
  rfl

/-- C10: the direct insert mutates the record in place and only in its id
fields — an all-scalar auto-id insert returns the record with the new id
consed onto the unchanged tail; for an embedded member the child is
inserted first and the parent binds the child record as mutated by that
insert (its freshly assigned id), as the `E`/`C` scenario shows end to end;
by contrast `addToBuffer` stores a copy of the record unchanged in the
write buffer and modifies nothing else, and a later flush assigns the new
id to the persisted copy while the buffered record itself still held the
unassigned sentinel. -/
theorem claim_C10_insert_frame :
    (∀ (env : Env) (name : String) (rest : List Field) (vs : List Value)
      (rs : RegState) (d : DAOState) (rows : List Row) (fuel : Nat),
      envFields env name = ("id", FieldKind.integer) :: rest →
      allScalar rest = true → matchesKinds rest vs = true →
      daoFind rs.daos name = some d → d.hasInsertStmt = true →
      tblFind rs.tables name = some rows → d.idCounter + 1 < U32MOD →
      (daoInsert env (fuel + 1) name rs
        (Value.vInt (UNASSIGNED : Int) :: vs)).2.1 =
        Value.vInt ((d.idCounter + 1 : Nat) : Int) :: vs) ∧
    (∀ (ci : String → RegState → Record → Bool × Record × RegState)
      (parent : String) (pid : Nat) (fname child : String)
      (fs : List Field) (sub : Record) (vs : List Value) (rs : RegState),
      (insertCells ci parent pid ((fname, FieldKind.embedded child) :: fs)
        (Value.vEmbedded sub :: vs) rs).1.head? =
        some (SQLVal.sInt (getId (ci child rs sub).2.1 : Int)) ∧
      (insertCells ci parent pid ((fname, FieldKind.embedded child) :: fs)
        (Value.vEmbedded sub :: vs) rs).2.1.head? =
        some (Value.vEmbedded (ci child rs sub).2.1)) ∧
    (∀ y : Int,
      daoInsert ebEnv 2 "E" rsEB (mkE y) =
        (true,
         [Value.vInt ((1 : Nat) : Int),
          Value.vEmbedded [Value.vInt ((1 : Nat) : Int), Value.vInt y]],
         ebDone y)) ∧
    (∀ (env : Env) (name : String) (rs : RegState) (d : DAOState)
      (r : Record),
      daoFind rs.daos name = some d →
      daoAddToBuffer env name rs r =
        { rs with daos :=
            daoSet rs.daos name { d with writeBuffer := d.writeBuffer ++ [r] } }) ∧
    (∀ (env : Env) (name : String) (rest : List Field) (vs : List Value)
      (rs : RegState) (d : DAOState) (rows : List Row) (fuel : Nat),
      envFields env name = ("id", FieldKind.integer) :: rest →
      allScalar rest = true → matchesKinds rest vs = true →
      daoFind rs.daos name = some d → d.hasInsertStmt = true →
      tblFind rs.tables name = some rows →
      d.writeBuffer = [Value.vInt (UNASSIGNED : Int) :: vs] →
      d.flushBuffer = [] → d.idCounter + 1 < U32MOD →
      daoFlushInsert env (fuel + 1) name rs =
        { daos := daoSet rs.daos name
            { d with idCounter := d.idCounter + 1,
                     writeBuffer := [], flushBuffer := [] },
          tables := tblSet rs.tables name
            (rows ++
              [SQLVal.sInt ((d.idCounter + 1 : Nat) : Int) ::
                vs.map encodeScalar]),
          log := rs.log }) := by
  refine ⟨?_, ?_, eb_insert, ?_, ?_⟩
  · intro env name rest vs rs d rows fuel hf hs hm hd hi ht hc
    rw [daoInsert_scalar_auto env name rest vs rs d rows fuel hf hs hm hd hi
      ht hc]
  · intro ci parent pid fname child fs sub vs rs
    exact ⟨rfl, rfl⟩
  · intro env name rs d r hd
    exact daoAddToBuffer_eq env name rs d r hd
  · intro env name rest vs rs d rows fuel hf hs hm hd hi ht hwb hfb hc
    have h := daoFlushInsert_scalar env name rest fuel [vs] rs d rows hf hs
      (by intro v hv; rw [List.mem_singleton] at hv; subst hv; exact hm)
      hd hi ht hwb hfb hc
    rw [h]
    rfl

/-- The registry after buffering one `widgetRec` on the `Item` Accessor. -/
def itemBufState : RegState :=
  daoAddToBuffer itemEnv "Item" itemRegState widgetRec

/-- The `Item` DAO after that `addToBuffer`. -/
def itemBufDAO : DAOState :=
  { itemDAO with writeBuffer := [widgetRec] }

/-- Witness for C10 at the `Item` and `E`/`C` schemas: direct insert frame,
embedded binding, buffered copy and single-record flush, hypotheses
evaluated. -/
theorem claim_C10_witness :
    (daoInsert itemEnv 1 "Item" itemRegState widgetRec).2.1 =
      Value.vInt ((itemDAO.idCounter + 1 : Nat) : Int) ::
        [Value.vText "Widget", Value.vFloat (1999 / 100)] ∧
    (insertCells (daoInsert ebEnv 1) "E" 1
      [("sub", FieldKind.embedded "C")] [Value.vEmbedded (mkC 42)]
      ebMid).1.head? =
      some (SQLVal.sInt
        (getId (daoInsert ebEnv 1 "C" ebMid (mkC 42)).2.1 : Int)) ∧
    daoInsert ebEnv 2 "E" rsEB (mkE 42) =
      (true,
       [Value.vInt ((1 : Nat) : Int),
        Value.vEmbedded [Value.vInt ((1 : Nat) : Int), Value.vInt 42]],
       ebDone 42) ∧
    daoAddToBuffer itemEnv "Item" itemRegState widgetRec =
      { itemRegState with daos := daoSet itemRegState.daos "Item" { itemDAO with writeBuffer := itemDAO.writeBuffer ++ [widgetRec] } } ∧
    daoFind itemBufState.daos "Item" = some itemBufDAO ∧
    itemBufDAO.writeBuffer =
      [Value.vInt (UNASSIGNED : Int) ::
        [Value.vText "Widget", Value.vFloat (1999 / 100)]] ∧
    daoFlushInsert itemEnv 1 "Item" itemBufState =
      { daos := daoSet itemBufState.daos "Item"
          { itemBufDAO with idCounter := itemBufDAO.idCounter + 1,
                            writeBuffer := [], flushBuffer := [] },
        tables := tblSet itemBufState.tables "Item"
          ([] ++
            [SQLVal.sInt ((itemBufDAO.idCounter + 1 : Nat) : Int) ::
              [Value.vText "Widget", Value.vFloat (1999 / 100)].map
                encodeScalar]),
        log := itemBufState.log } := by
  refine ⟨?_, ?_, claim_C10_insert_frame.2.2.1 42, ?_, rfl, rfl, ?_⟩
  · exact claim_C10_insert_frame.1 itemEnv "Item"
      [("name", FieldKind.text), ("price", FieldKind.float)]
      [Value.vText "Widget", Value.vFloat (1999 / 100)]
      itemRegState itemDAO [] 0 rfl rfl rfl rfl rfl rfl (by decide)
  · exact (claim_C10_insert_frame.2.1 (daoInsert ebEnv 1) "E" 1 "sub" "C"
      [] (mkC 42) [] ebMid).1
  · exact claim_C10_insert_frame.2.2.2.1 itemEnv "Item" itemRegState itemDAO
      widgetRec rfl
  · exact claim_C10_insert_frame.2.2.2.2 itemEnv "Item"
      [("name", FieldKind.text), ("price", FieldKind.float)]
      [Value.vText "Widget", Value.vFloat (1999 / 100)]
      itemBufState itemBufDAO [] 0 rfl rfl rfl rfl rfl rfl rfl rfl
      (by decide)

end CppSqlite
